import Mathlib

/-
  Verification of the Build Controller reconciliation core
  (pkg/build/controller/build/build_controller.go) against its
  natural-language specification.

  The Go source is shallowly embedded: pure helpers become Lean functions,
  the controller's external collaborators (listers, typed clients, the
  strategy factory, the run policies, the event recorder and the work
  queues) are supplied through an explicit environment record, and every
  observable side effect (events, pod/configmap requests, patches, queue
  operations) is recorded in an effect trace.  Strings are modelled as
  sequences of characters; times are integers in milliseconds with an
  explicit rounding function mirroring metav1.Time.Rfc3339Copy.
-/

namespace BuildCtl

/-- Time instants in milliseconds, standing in for metav1.Time. -/
abbrev Time := Int

/-- Rounding of a time to RFC-3339 second precision, as metav1.Time.Rfc3339Copy does. -/
def rfc3339Copy (t : Time) : Time := (t / 1000) * 1000

/-- The seven phases of buildv1.BuildPhase. -/
inductive BuildPhase
  | New
  | Pending
  | Running
  | Complete
  | Failed
  | Error
  | Cancelled
deriving DecidableEq, Repr, Fintype

/-- The pod phases relevant to the controller (corev1.PodPhase). -/
inductive PodPhase
  | Pending
  | Running
  | Succeeded
  | Failed
deriving DecidableEq, Repr, Fintype

/-- Modelled from the spec: buildutil.IsTerminalPhase is outside the embedded file;
terminal phases are Complete, Failed, Error and Cancelled. -/
def isTerminalPhase : BuildPhase → Bool
  | .New => false
  | .Pending => false
  | .Running => false
  | _ => true

/-! Status reason codes (buildv1.StatusReason values are strings). -/

def statusReasonCancelledBuild : String := "CancelledBuild"
def statusReasonBuildPodExists : String := "BuildPodExists"
def statusReasonBuildPodDeleted : String := "BuildPodDeleted"
def statusReasonMissingPushSecret : String := "MissingPushSecret"
def statusReasonCannotRetrieveServiceAccount : String := "CannotRetrieveServiceAccount"
def statusReasonInvalidOutputReference : String := "InvalidOutputReference"
def statusReasonInvalidImageReference : String := "InvalidImageReference"
def statusReasonCannotCreateBuildPod : String := "CannotCreateBuildPod"
def statusReasonCannotCreateBuildPodSpec : String := "CannotCreateBuildPodSpec"
def statusReasonUnresolvableEnvironmentVariable : String := "UnresolvableEnvironmentVariable"
def statusReasonOutOfMemoryKilled : String := "OutOfMemoryKilled"
def statusReasonFailedContainer : String := "FailedContainer"
def statusReasonNoBuildContainerStatus : String := "NoBuildContainerStatus"
def statusReasonGenericBuildFailed : String := "GenericBuildFailed"
def statusReasonCannotCreateCAConfigMap : String := "CannotCreateCAConfigMap"

/-! Status messages. Modelled from the spec: the buildutil.StatusMessage constants live
outside the embedded file; only their identity matters to the claims. -/

def statusMessageCancelledBuild : String := "The build was cancelled by the user."
def statusMessageBuildPodExists : String := "The pod for this build already exists and is older than the build."
def statusMessageBuildPodDeleted : String := "The pod for this build was deleted before the build completed."
def statusMessageMissingPushSecret : String := "Missing push secret."
def statusMessageCannotRetrieveServiceAccount : String := "Unable to look up the service account secrets for this build."
def statusMessageInvalidOutputRef : String := "Output image could not be resolved."
def statusMessageInvalidImageRef : String := "Referenced image could not be resolved."
def statusMessageCannotCreateBuildPod : String := "Failed creating build pod."
def statusMessageCannotCreateBuildPodSpec : String := "Failed to create pod spec."
def statusMessageUnresolvableEnvironmentVariable : String := "Unable to resolve build environment variable reference."
def statusMessageOutOfMemoryKilled : String := "The build pod was killed due to an out of memory condition."
def statusMessageFailedContainer : String := "The pod for this build has at least one container with a non-zero exit status."
def statusMessageNoBuildContainerStatus : String := "The pod for this build has no container statuses indicating success or failure."
def statusMessageGenericBuildFailed : String := "Generic Build failure - check logs for details."
def statusMessageCannotCreateCAConfigMap : String := "Failed creating build certificate authority configMap."

/-- maxExcerptLength (build_controller.go): maximum number of LogSnippet lines. -/
def maxExcerptLength : Nat := 5

/-- Modelled from the spec: strategy.GitCloneContainer, the name of the git-clone init container. -/
def gitCloneContainer : String := "git-clone"

/-- Modelled from the spec: buildutil.BuilderServiceAccountName. -/
def builderServiceAccountName : String := "builder"

/-- Modelled from the spec: the pod-name marker key carried on builds. -/
def buildPodNameAnnKey : String := "build.openshift.io/build.pod-name"

/-- corev1.SecretTypeDockercfg. -/
def secretTypeDockercfg : String := "kubernetes.io/dockercfg"

/-- corev1.SecretTypeDockerConfigJson. -/
def secretTypeDockerConfigJson : String := "kubernetes.io/dockerconfigjson"

/-! String helpers mirroring the Go standard library functions used by the source. -/

/-- Helper for splitting a character list at the first occurrence of a separator. -/
def splitOnFirstChar (sep : Char) : List Char → Option (List Char × List Char)
  | [] => none
  | c :: rest =>
    if c = sep then some ([], rest)
    else
      match splitOnFirstChar sep rest with
      | none => none
      | some (a, b) => some (c :: a, b)

/-- Helper for splitNewlines: accumulates the current line in reverse. -/
def splitNewlinesAux : List Char → List Char → List (List Char)
  | [], acc => [acc.reverse]
  | c :: rest, acc =>
    if c = '\n' then acc.reverse :: splitNewlinesAux rest []
    else splitNewlinesAux rest (c :: acc)

/-- Go strings.Split(s, newline): splits at every newline, never returns an empty list. -/
def splitNewlines (s : String) : List String :=
  (splitNewlinesAux s.toList []).map (fun l => String.mk l)

/-- Go strings.TrimRight(s, newline): drops every trailing newline character. -/
def trimRightNewlines (s : String) : String :=
  String.mk ((s.toList.reverse.dropWhile (fun c => c = '\n')).reverse)

/-- Go strings.Join(parts, newline). -/
def joinNewlines : List String → String
  | [] => ""
  | [s] => s
  | s :: rest => s ++ "\n" ++ joinNewlines rest

/-! The data model. -/

/-- corev1.ObjectReference restricted to the fields the controller reads. -/
structure ObjectReference where
  kind : String := ""
  nspace : String := ""
  name : String := ""
deriving DecidableEq, Repr

/-- imagev1.TagEvent: one entry in an image stream tag history. -/
structure TagEvent where
  dockerImageReference : String := ""
  image : String := ""
deriving DecidableEq, Repr

/-- imagev1.NamedTagEventList: the history of one tag. -/
structure NamedTagEventList where
  tag : String := ""
  items : List TagEvent := []
deriving DecidableEq, Repr

/-- imagev1.ImageStream restricted to the status fields the controller reads. -/
structure ImageStream where
  dockerImageRepository : String := ""
  tags : List NamedTagEventList := []
deriving DecidableEq, Repr

/-- corev1.Secret restricted to name and type. -/
structure Secret where
  name : String := ""
  type : String := ""
deriving DecidableEq, Repr

/-- corev1.ContainerStateTerminated. -/
structure ContainerStateTerminated where
  exitCode : Int := 0
  reason : String := ""
  message : String := ""
deriving DecidableEq, Repr

/-- corev1.ContainerState: running is true when State.Running is non-nil. -/
structure ContainerState where
  running : Bool := false
  terminated : Option ContainerStateTerminated := none
deriving DecidableEq, Repr

/-- corev1.ContainerStatus. -/
structure ContainerStatus where
  name : String := ""
  state : ContainerState := {}
deriving DecidableEq, Repr

/-- metav1.OwnerReference restricted to kind and name. -/
structure OwnerReference where
  kind : String := ""
  name : String := ""
deriving DecidableEq, Repr

/-- corev1.PodStatus restricted to the fields the controller reads. -/
structure PodStatus where
  phase : PodPhase := .Pending
  reason : String := ""
  startTime : Option Time := none
  initContainerStatuses : List ContainerStatus := []
  containerStatuses : List ContainerStatus := []
deriving DecidableEq, Repr

/-- corev1.Pod restricted to the fields the controller reads. -/
structure Pod where
  name : String := ""
  nspace : String := ""
  annotations : List (String × String) := []
  ownerReferences : List OwnerReference := []
  deletionTimestamp : Option Time := none
  status : PodStatus := {}
deriving DecidableEq, Repr

/-- buildv1.ImageSource: one source input image. -/
structure SourceImage where
  fromRef : ObjectReference := {}
  pullSecret : Option String := none
deriving DecidableEq, Repr

/-- buildv1.SourceBuildStrategy: the From reference is mandatory. -/
structure SourceBuildStrategy where
  fromRef : ObjectReference := {}
  pullSecret : Option String := none
deriving DecidableEq, Repr

/-- buildv1.DockerBuildStrategy: the From reference is optional. -/
structure DockerBuildStrategy where
  fromRef : Option ObjectReference := none
  pullSecret : Option String := none
deriving DecidableEq, Repr

/-- buildv1.CustomBuildStrategy: the From reference is mandatory. -/
structure CustomBuildStrategy where
  fromRef : ObjectReference := {}
  pullSecret : Option String := none
deriving DecidableEq, Repr

/-- buildv1.BuildStrategy: at most one variant is set. -/
structure BuildStrategy where
  dockerStrategy : Option DockerBuildStrategy := none
  sourceStrategy : Option SourceBuildStrategy := none
  customStrategy : Option CustomBuildStrategy := none
  jenkinsPipelineStrategy : Bool := false
deriving DecidableEq, Repr

/-- buildv1.BuildOutput.  toRef stands for the field named To in the source. -/
structure BuildOutput where
  toRef : Option ObjectReference := none
  pushSecret : Option String := none
deriving DecidableEq, Repr

/-- buildv1.BuildSource restricted to the input images. -/
structure BuildSource where
  images : List SourceImage := []
deriving DecidableEq, Repr

/-- buildv1.BuildSpec restricted to the fields the controller reads. -/
structure BuildSpec where
  strategy : BuildStrategy := {}
  source : BuildSource := {}
  output : BuildOutput := {}
  serviceAccount : String := ""
deriving DecidableEq, Repr

/-- buildv1.BuildStatus restricted to the fields the controller reads or writes. -/
structure BuildStatus where
  phase : BuildPhase := .New
  cancelled : Bool := false
  reason : String := ""
  message : String := ""
  startTimestamp : Option Time := none
  completionTimestamp : Option Time := none
  duration : Option Int := none
  outputDockerImageReference : String := ""
  logSnippet : String := ""
deriving DecidableEq, Repr

/-- buildv1.Build restricted to the fields the controller reads or writes. -/
structure Build where
  nspace : String := ""
  name : String := ""
  annotations : List (String × String) := []
  spec : BuildSpec := {}
  status : BuildStatus := {}
deriving DecidableEq, Repr

/-- Modelled from the spec: the BuildUpdate delta (buildupdate.go is outside the embedded
file).  Every field is optional; isEmpty is true iff every field is unset; each setter
sets exactly its own field. -/
structure buildUpdate where
  phase : Option BuildPhase := none
  reason : Option String := none
  message : Option String := none
  startTime : Option Time := none
  completionTime : Option Time := none
  duration : Option Int := none
  outputRef : Option String := none
  logSnippet : Option String := none
  podNameAnn : Option String := none
  pushSecret : Option String := none
deriving DecidableEq, Repr

def buildUpdate.setPhase (u : buildUpdate) (p : BuildPhase) : buildUpdate := { u with phase := some p }

def buildUpdate.setReason (u : buildUpdate) (r : String) : buildUpdate := { u with reason := some r }

def buildUpdate.setMessage (u : buildUpdate) (m : String) : buildUpdate := { u with message := some m }

def buildUpdate.setStartTime (u : buildUpdate) (t : Time) : buildUpdate := { u with startTime := some t }

def buildUpdate.setCompletionTime (u : buildUpdate) (t : Time) : buildUpdate := { u with completionTime := some t }

def buildUpdate.setDuration (u : buildUpdate) (d : Int) : buildUpdate := { u with duration := some d }

def buildUpdate.setOutputRef (u : buildUpdate) (r : String) : buildUpdate := { u with outputRef := some r }

def buildUpdate.setLogSnippet (u : buildUpdate) (s : String) : buildUpdate := { u with logSnippet := some s }

def buildUpdate.setPodNameAnn (u : buildUpdate) (n : String) : buildUpdate := { u with podNameAnn := some n }

def buildUpdate.setPushSecret (u : buildUpdate) (s : String) : buildUpdate := { u with pushSecret := some s }

/-- Modelled from the spec: isEmpty returns true iff every field is unset. -/
def buildUpdate.isEmpty (u : buildUpdate) : Bool :=
  u.phase.isNone && u.reason.isNone && u.message.isNone && u.startTime.isNone &&
  u.completionTime.isNone && u.duration.isNone && u.outputRef.isNone &&
  u.logSnippet.isNone && u.podNameAnn.isNone && u.pushSecret.isNone

/-- transitionToPhase (build_controller.go): a buildUpdate moving a build to a new phase
with the given reason and message. -/
def transitionToPhase (phase : BuildPhase) (reason message : String) : buildUpdate :=
  ((({} : buildUpdate).setPhase phase).setReason reason).setMessage message

/-! Go error values.  Identity of the marker errors and of the k8s status errors
matters to the control flow, so errors are embedded as an inductive. -/

/-- The error values flowing through the controller.  agg models a
utilerrors.Aggregate. -/
inductive GoErr
  | notFound
  | alreadyExists
  | noIntegratedRegistry
  | invalidImageRefs
  | fatalErr (msg : String)
  | envVarErr (msg : String)
  | otherErr (msg : String)
  | agg (errs : List GoErr)
deriving Repr

/-- Matches k8s NotFound errors; it also stands for the field.ErrorTypeNotFound matcher,
since the image-reference mutator turns NotFound lookups into field errors of that type. -/
def isNotFoundErr : GoErr → Bool
  | .notFound => true
  | _ => false

/-- errors.IsAlreadyExists. -/
def isAlreadyExistsErr : GoErr → Bool
  | .alreadyExists => true
  | _ => false

/-- Modelled from the spec: strategy.IsFatal marks strategy-fatal pod-spec errors. -/
def isFatal : GoErr → Bool
  | .fatalErr _ => true
  | _ => false

/-- The common.ErrEnvVarResolver type test in createBuildPod. -/
def isEnvVarResolverErr : GoErr → Bool
  | .envVarErr _ => true
  | _ => false

/-- The identity comparison with the errNoIntegratedRegistry marker. -/
def isNoIntegratedRegistryErr : GoErr → Bool
  | .noIntegratedRegistry => true
  | _ => false

mutual

/-- hasError (build_controller.go): true if the error, or any error inside an
aggregate, matches the predicate. -/
def hasError (f : GoErr → Bool) : GoErr → Bool
  | .agg l => hasErrorList f l
  | e => f e

/-- hasError lifted over the members of an aggregate. -/
def hasErrorList (f : GoErr → Bool) : List GoErr → Bool
  | [] => false
  | e :: rest => hasError f e || hasErrorList f rest

end

/-! External helpers of this repository that live outside the embedded file. -/

/-- Modelled from the spec: buildutil.IsBuildComplete — the build is in a terminal phase. -/
def isBuildComplete (b : Build) : Bool := isTerminalPhase b.status.phase

/-- Modelled from the spec: buildapihelpers.GetBuildPodName — the companion pod of a
build is named after it (the spec's happy-path scenario names it b1-build for build b1). -/
def getBuildPodName (b : Build) : String := b.name ++ "-build"

/-- Modelled from the spec: buildapihelpers.GetBuildCAConfigMapName — the certificate
authority map of a build (the spec's happy-path scenario names it b1-ca for build b1). -/
def getBuildCAConfigMapName (b : Build) : String := b.name ++ "-ca"

/-- Modelled from the spec: strategy.HasOwnerReference — the pod carries an owner
reference naming the build. -/
def hasOwnerReference (pod : Pod) (b : Build) : Bool :=
  pod.ownerReferences.any (fun r => r.kind = "Build" && r.name = b.name)

/-- Modelled from the spec: the check of common that a build already carries the
pod-name marker. -/
def hasBuildPodNameAnn (b : Build) : Bool :=
  b.annotations.any (fun kv => kv.fst = buildPodNameAnnKey)

/-- Modelled from the spec: buildutil.ConfigNameForBuild — the owning BuildConfig
name recorded on the build, with the build name as fallback. -/
def configNameForBuild (b : Build) : String :=
  match b.annotations.find? (fun kv => kv.fst = "openshift.io/build-config.name") with
  | some kv => kv.snd
  | none => b.name

/-- Modelled from the spec: imageapi.SplitImageStreamTag — a name of the form
stream:tag; a missing tag part is not ok and defaults to latest. -/
def splitImageStreamTag (s : String) : String × String × Bool :=
  match splitOnFirstChar ':' s.toList with
  | some (n, t) =>
    (String.mk n, if t.isEmpty then "latest" else String.mk t, true)
  | none => (s, "latest", false)

/-- Modelled from the spec: imageapi.SplitImageStreamImage — a name of the form
stream at image-id, split at the separator. -/
def splitImageStreamImage (s : String) : String × String × Bool :=
  match splitOnFirstChar '@' s.toList with
  | some (n, t) => (String.mk n, String.mk t, true)
  | none => (s, "", false)

/-- Modelled from the spec: output references resolve to the dockerImageRepository of
the stream with the requested tag appended (imageapi.ParseDockerImageReference plus
DockerImageReference.Exact with the ID cleared). -/
def dockerImageRefWithTag (repo tag : String) : String :=
  if tag = "" then repo else repo ++ ":" ++ tag

/-- Modelled from the spec: imageutil.ResolveImageID — look the image ID up in the
tag history of the stream. -/
def resolveImageID (stream : ImageStream) (imageID : String) : Except GoErr TagEvent :=
  match ((stream.tags.map (fun t => t.items)).flatten).filter (fun e => e.image = imageID) with
  | [e] => .ok e
  | [] => .error .notFound
  | _ => .error (.otherErr "multiple images match")

/-- Modelled from the spec: imageutil.ResolveLatestTaggedImage — the most recent
docker image reference recorded for the tag. -/
def resolveLatestTaggedImage (stream : ImageStream) (tag : String) : Option String :=
  let t := if tag = "" then "latest" else tag
  match stream.tags.find? (fun l => l.tag = t) with
  | some l =>
    match l.items with
    | e :: _ => if e.dockerImageReference = "" then none else some e.dockerImageReference
    | [] => none
  | none => none

/-- Modelled from the spec: the image-reference mutator walks every ObjectReference of
a build — the strategy From, the output To and each source input image From
(pkg/api/imagereferencemutators is outside the embedded file).  This is the list of
references in the order the walk visits them. -/
def buildRefs (b : Build) : List ObjectReference :=
  (match b.spec.strategy.dockerStrategy with
   | some d => match d.fromRef with | some r => [r] | none => []
   | none => [])
  ++ (match b.spec.strategy.sourceStrategy with | some s => [s.fromRef] | none => [])
  ++ (match b.spec.strategy.customStrategy with | some c => [c.fromRef] | none => [])
  ++ (match b.spec.output.toRef with | some r => [r] | none => [])
  ++ b.spec.source.images.map (fun i => i.fromRef)

/-- Applies the visitor to one reference, keeping the original on error. -/
def mutateOneRef (fn : ObjectReference → Except GoErr ObjectReference)
    (r : ObjectReference) : ObjectReference × List GoErr :=
  match fn r with
  | .ok r2 => (r2, [])
  | .error e => (r, [e])

/-- Modelled from the spec: the in-place mutation pass of the image-reference mutator.
Each reference position of the build is rewritten through the visitor; errors are
collected. -/
def mutateBuildRefs (b : Build) (fn : ObjectReference → Except GoErr ObjectReference) :
    Build × List GoErr :=
  let (ds, e1) :=
    match b.spec.strategy.dockerStrategy with
    | some d =>
      match d.fromRef with
      | some r =>
        let (r2, es) := mutateOneRef fn r
        (some { d with fromRef := some r2 }, es)
      | none => (some d, [])
    | none => (none, [])
  let (ss, e2) :=
    match b.spec.strategy.sourceStrategy with
    | some s =>
      let (r2, es) := mutateOneRef fn s.fromRef
      (some { s with fromRef := r2 }, es)
    | none => (none, [])
  let (cs, e3) :=
    match b.spec.strategy.customStrategy with
    | some c =>
      let (r2, es) := mutateOneRef fn c.fromRef
      (some { c with fromRef := r2 }, es)
    | none => (none, [])
  let (outTo, e4) :=
    match b.spec.output.toRef with
    | some r =>
      let (r2, es) := mutateOneRef fn r
      (some r2, es)
    | none => (none, [])
  let imgs := b.spec.source.images.map (fun img =>
    let (r2, es) := mutateOneRef fn img.fromRef
    ({ img with fromRef := r2 }, es))
  ({ b with
      spec.strategy.dockerStrategy := ds,
      spec.strategy.sourceStrategy := ss,
      spec.strategy.customStrategy := cs,
      spec.output.toRef := outTo,
      spec.source.images := imgs.map Prod.fst },
   e1 ++ e2 ++ e3 ++ e4 ++ (imgs.map Prod.snd).flatten)

/-! Observable effects and the environment of external collaborators. -/

/-- The observable side effects of one reconciliation: events, client requests,
queue operations and the patch that updateBuild applies. -/
inductive Effect
  | updateCall
  | eventf (etype reason : String)
  | podDelete (nspace name : String)
  | podCreateReq (nspace name : String)
  | configMapCreateReq (nspace name : String)
  | patch (nspace name : String) (u : buildUpdate)
  | enqueueBuildConfig (key : String)
  | prune (nspace name : String)
  | isqAdd (resource : String) (onKeys : List String)
  | isqRemove (resource : String) (onKeys : List String)
deriving DecidableEq, Repr

/-- The environment of external collaborators: cache listers, typed clients, the
strategy factory and the run policies, each represented by the answer it would give
during this reconciliation, plus the current time. -/
structure Env where
  now : Time := 0
  streams : String → String → Option ImageStream := fun _ _ => none
  podStoreGet : Option Pod := none
  findMissingPod : Option Pod := none
  secretExists : String → String → Bool := fun _ _ => false
  runPolicy : Option (Build → Except GoErr Bool) := none
  saSecrets : Except GoErr (List Secret) := .ok []
  findDockerSecret : List Secret → String → Option String := fun _ _ => none
  createStrategy : Build → Bool → Except GoErr Pod := fun _ _ => .error (.otherErr "")
  applyDefaultsErr : Option GoErr := none
  applyOverridesErr : Option GoErr := none
  resolveValueFromErr : Option GoErr := none
  podCreate : Pod → Except GoErr Pod := fun p => .ok p
  podGetExisting : Except GoErr Pod := .error .notFound
  findCAConfigMap : Except GoErr Bool := .ok true
  configMapCreateErr : Option GoErr := none
  podDeleteErr : Option GoErr := none
  patchResult : Build → buildUpdate → Except GoErr Build := fun b _ => .ok b
  additionalTrustedCAData : String := ""

/-- resourceName (build_controller.go). -/
def resourceName (nspace name : String) : String := nspace ++ "/" ++ name

/-! The resourceTriggerQueue (build_controller.go).  The Go map with absent keys
reading as nil slices is embedded as a total bucket function. -/

/-- resourceTriggerQueue: for each stream key, the ordered bucket of build keys
awaiting it.  An absent key reads as the empty bucket, exactly as the Go map does. -/
structure ResourceTriggerQueue where
  queue : String → List String

/-- Add (build_controller.go): append the resource under every key of on. -/
def ResourceTriggerQueue.Add (q : ResourceTriggerQueue) (resource : String)
    (onKeys : List String) : ResourceTriggerQueue :=
  onKeys.foldl (fun q key =>
    { queue := fun k => if k = key then q.queue k ++ [resource] else q.queue k }) q

/-- Remove (build_controller.go): drop every occurrence of the resource under every
key of on. -/
def ResourceTriggerQueue.Remove (q : ResourceTriggerQueue) (resource : String)
    (onKeys : List String) : ResourceTriggerQueue :=
  onKeys.foldl (fun q key =>
    { queue := fun k =>
        if k = key then (q.queue k).filter (fun existing => existing ≠ resource)
        else q.queue k }) q

/-- Pop (build_controller.go): remove and return the whole bucket of the key. -/
def ResourceTriggerQueue.Pop (q : ResourceTriggerQueue) (key : String) :
    List String × ResourceTriggerQueue :=
  (q.queue key, { queue := fun k => if k = key then [] else q.queue k })

/-- Modelled from the spec: the rate-limited work queues de-duplicate — enqueueing a
key already present coalesces. -/
def buildQueueAdd (bq : List String) (k : String) : List String :=
  if k ∈ bq then bq else bq ++ [k]

/-- imageStreamAdded (build_controller.go): pop the bucket of the stream key and
enqueue every awaiting build key on the build queue. -/
def imageStreamAdded (isq : ResourceTriggerQueue) (bq : List String)
    (streamKey : String) : ResourceTriggerQueue × List String :=
  let p := isq.Pop streamKey
  (p.2, p.1.foldl buildQueueAdd bq)

/-! The reconciler state machine. -/

/-- isValidTransition (build_controller.go). -/
def isValidTransition (f t : BuildPhase) : Bool :=
  if f = t then true
  else if isTerminalPhase f then false
  else if f = .Pending then
    match t with
    | .New => false
    | _ => true
  else if f = .Running then
    match t with
    | .New => false
    | .Pending => false
    | _ => true
  else true

/-- The legal-transition relation exactly as the specification words it: same-phase
always allowed; nothing leaves a terminal phase; Pending may not go back to New;
Running may not go back to New or Pending; everything else is permitted. -/
def legalTransitionSpec (f t : BuildPhase) : Bool :=
  (f = t) ||
  (!isTerminalPhase f &&
   !(f = BuildPhase.Pending && t = BuildPhase.New) &&
   !(f = BuildPhase.Running && (t = BuildPhase.New || t = BuildPhase.Pending)))

/-- isOOMKilled (build_controller.go). -/
def isOOMKilled : Option Pod → Bool
  | none => false
  | some pod =>
    pod.status.reason = "OOMKilled"
    || pod.status.initContainerStatuses.any (fun c =>
         match c.state.terminated with
         | some t => t.reason = "OOMKilled"
         | none => false)
    || pod.status.containerStatuses.any (fun c =>
         match c.state.terminated with
         | some t => t.reason = "OOMKilled"
         | none => false)

/-- shouldIgnore (build_controller.go). -/
def shouldIgnore (build : Build) : Bool :=
  if build.spec.strategy.jenkinsPipelineStrategy then true
  else if isBuildComplete build then
    match build.status.phase with
    | .Complete => build.status.completionTimestamp.isSome
    | .Failed => build.status.completionTimestamp.isSome && !build.status.logSnippet.isEmpty
    | _ => true
  else false

/-- shouldCancel (build_controller.go). -/
def shouldCancel (build : Build) : Bool :=
  !isBuildComplete build && build.status.cancelled

/-- The effective start time chosen by setBuildCompletionData: the recorded start
timestamp, else the start time of the pod, else now. -/
def effectiveStartTime (b : Build) (pod : Option Pod) (now : Time) : Time :=
  match b.status.startTimestamp with
  | some t => t
  | none =>
    match pod with
    | some p => p.status.startTime.getD now
    | none => now

/-- The log-snippet derivation inside setBuildCompletionData (build_controller.go):
trim trailing newlines, keep the last maxExcerptLength lines, elide any line of more
than 120 characters to its first 58 characters, an ellipsis and its last 59. -/
def deriveLogSnippet (msg : String) : String :=
  let parts := splitNewlines (trimRightNewlines msg)
  let excerptLength := if parts.length < maxExcerptLength then parts.length else maxExcerptLength
  let excerpt := parts.drop (parts.length - excerptLength)
  let excerpt := excerpt.map (fun line =>
    if line.length > 120 then
      String.mk (line.toList.take 58) ++ "..." ++ String.mk (line.toList.drop (line.length - 59))
    else line)
  joinNewlines excerpt

/-- setBuildCompletionData (build_controller.go); now stands for the metav1.Now()
read at entry. -/
def setBuildCompletionData (b : Build) (pod : Option Pod) (update : buildUpdate)
    (now : Time) : buildUpdate :=
  let effStart := effectiveStartTime b pod now
  let u := if b.status.startTimestamp = none then update.setStartTime effStart else update
  let u :=
    if b.status.completionTimestamp = none then
      (u.setCompletionTime now).setDuration (rfc3339Copy now - rfc3339Copy effStart)
    else u
  if (b.status.phase = BuildPhase.Failed ∨ update.phase = some BuildPhase.Failed) ∧
      b.status.logSnippet = "" then
    match pod with
    | some p =>
      match p.status.containerStatuses with
      | c :: _ =>
        match c.state.terminated with
        | some t => if t.message = "" then u else u.setLogSnippet (deriveLogSnippet t.message)
        | none => u
      | [] => u
    | none => u
  else u

/-- handleCompletedBuild (build_controller.go): called on builds already in a terminal
phase to set the completion timestamp and failure logSnippet as needed. -/
def handleCompletedBuild (now : Time) (build : Build) (pod : Option Pod) :
    Option buildUpdate × Option GoErr × List Effect :=
  let update : buildUpdate :=
    if isOOMKilled pod then
      transitionToPhase .Failed statusReasonOutOfMemoryKilled statusMessageOutOfMemoryKilled
    else {}
  (some (setBuildCompletionData build pod update now), none, [])

/-- handleActiveBuild (build_controller.go): a build in pending or running state is
synchronized with its pod; a build in phase New reaches this handler through
handleNewBuild when its pod already exists and is owned by it. -/
def handleActiveBuild (bc : Env) (b : Build) (pod0 : Option Pod) :
    Option buildUpdate × Option GoErr × List Effect :=
  let podOpt :=
    match pod0 with
    | some p => some p
    | none => bc.findMissingPod
  match podOpt with
  | none =>
    (some (transitionToPhase .Error statusReasonBuildPodDeleted statusMessageBuildPodDeleted),
     none, [])
  | some pod =>
    let podPhase :=
      if (b.status.phase = BuildPhase.Pending ∨ b.status.phase = BuildPhase.New) ∧
          pod.status.initContainerStatuses.any
            (fun c => c.name = gitCloneContainer && c.state.running) then
        PodPhase.Running
      else pod.status.phase
    let update : Option buildUpdate :=
      match podPhase with
      | .Pending =>
        let u0 :=
          if b.status.phase ≠ BuildPhase.Pending then
            some (transitionToPhase .Pending "" "")
          else none
        match b.spec.output.pushSecret with
        | some secret =>
          if b.status.reason ≠ statusReasonMissingPushSecret ∧
              !bc.secretExists b.nspace secret then
            some (transitionToPhase .Pending statusReasonMissingPushSecret
              statusMessageMissingPushSecret)
          else u0
        | none => u0
      | .Running =>
        if b.status.phase ≠ BuildPhase.Running then
          let u := transitionToPhase .Running "" ""
          some (match pod.status.startTime with
            | some t => u.setStartTime t
            | none => u)
        else none
      | .Succeeded =>
        let u0 :=
          if b.status.phase ≠ BuildPhase.Complete then
            some (transitionToPhase .Complete "" "")
          else none
        if pod.status.containerStatuses.isEmpty then
          some (transitionToPhase .Error statusReasonNoBuildContainerStatus
            statusMessageNoBuildContainerStatus)
        else if pod.status.containerStatuses.any (fun info =>
            match info.state.terminated with
            | some t => t.exitCode ≠ 0
            | none => false) then
          some (transitionToPhase .Error statusReasonFailedContainer
            statusMessageFailedContainer)
        else u0
      | .Failed =>
        if isOOMKilled (some pod) then
          some (transitionToPhase .Failed statusReasonOutOfMemoryKilled
            statusMessageOutOfMemoryKilled)
        else if b.status.phase ≠ BuildPhase.Failed then
          if pod.deletionTimestamp ≠ none then
            some (transitionToPhase .Error statusReasonBuildPodDeleted
              statusMessageBuildPodDeleted)
          else
            some (transitionToPhase .Failed statusReasonGenericBuildFailed
              statusMessageGenericBuildFailed)
        else none
    (update, none, [])

/-- cancelBuild (build_controller.go): best-effort delete of the build pod (NotFound
tolerated), then a transition to Cancelled. -/
def cancelBuild (bc : Env) (b : Build) : Option buildUpdate × Option GoErr × List Effect :=
  let podName := getBuildPodName b
  let fx := [Effect.podDelete b.nspace podName]
  match bc.podDeleteErr with
  | some e =>
    if isNotFoundErr e then
      (some (transitionToPhase .Cancelled statusReasonCancelledBuild statusMessageCancelledBuild),
       none, fx)
    else (none, some (.otherErr "could not delete build pod"), fx)
  | none =>
    (some (transitionToPhase .Cancelled statusReasonCancelledBuild statusMessageCancelledBuild),
     none, fx)

/-- resolveImageSecretAsReference (build_controller.go).  FetchServiceAccountSecrets
and FindDockerSecretAsReference are external collaborators answered by the
environment. -/
def resolveImageSecretAsReference (bc : Env) (b : Build) (imagename : String) :
    Except GoErr String :=
  let serviceAccount :=
    if b.spec.serviceAccount = "" then builderServiceAccountName else b.spec.serviceAccount
  match bc.saSecrets with
  | .error _ =>
    .error (.otherErr ("Error getting push/pull secrets for service account " ++ serviceAccount))
  | .ok builderSecrets =>
    let secret :=
      if imagename = "" then none else bc.findDockerSecret builderSecrets imagename
    match secret with
    | some s => .ok s
    | none =>
      match builderSecrets.find? (fun s =>
          s.type = secretTypeDockercfg || s.type = secretTypeDockerConfigJson) with
      | some s => .ok s.name
      | none =>
        .error (.otherErr ("No docker secrets associated with build service account " ++
          serviceAccount))

/-- unresolvedImageStreamReferences (build_controller.go): the ns/name keys of every
ImageStreamImage or ImageStreamTag reference of the build; malformed names give
errInvalidImageReferences. -/
def unresolvedImageStreamReferences (b : Build) : Except GoErr (List String) :=
  let step := fun (acc : List String × Bool) (ref : ObjectReference) =>
    match ref.kind with
    | "ImageStreamImage" =>
      let ns := if ref.nspace = "" then b.nspace else ref.nspace
      match splitImageStreamImage ref.name with
      | (name, _, ok) =>
        if ok then (acc.1 ++ [resourceName ns name], acc.2) else (acc.1, true)
    | "ImageStreamTag" =>
      let ns := if ref.nspace = "" then b.nspace else ref.nspace
      match splitImageStreamTag ref.name with
      | (name, _, ok) =>
        if ok then (acc.1 ++ [resourceName ns name], acc.2) else (acc.1, true)
    | _ => acc
  let r := (buildRefs b).foldl step ([], false)
  if r.2 then .error .invalidImageRefs else .ok r.1

/-- resolveImageStreamLocation (build_controller.go): the integrated-registry pull spec
of an output reference. -/
def resolveImageStreamLocation (ref : ObjectReference)
    (lister : String → String → Option ImageStream) (defaultNamespace : String) :
    Except GoErr String :=
  let ns := if ref.nspace = "" then defaultNamespace else ref.nspace
  let parsed : Except GoErr (String × String) :=
    match ref.kind with
    | "ImageStreamImage" =>
      match splitImageStreamImage ref.name with
      | (name, _, true) => .ok (name, "latest")
      | (_, _, false) => .error .invalidImageRefs
    | "ImageStreamTag" =>
      match splitImageStreamTag ref.name with
      | (name, tag, true) => .ok (name, tag)
      | (_, _, false) => .error .invalidImageRefs
    | "ImageStream" => .ok (ref.name, "")
    | _ => .ok ("", "")
  match parsed with
  | .error e => .error e
  | .ok (name, tag) =>
    match lister ns name with
    | none => .error .notFound
    | some stream =>
      if stream.dockerImageRepository = "" then .error .noIntegratedRegistry
      else .ok (dockerImageRefWithTag stream.dockerImageRepository tag)

/-- resolveImageStreamImage (build_controller.go). -/
def resolveImageStreamImage (ref : ObjectReference)
    (lister : String → String → Option ImageStream) (defaultNamespace : String) :
    Except GoErr ObjectReference :=
  let ns := if ref.nspace = "" then defaultNamespace else ref.nspace
  match splitImageStreamImage ref.name with
  | (_, _, false) => .error .invalidImageRefs
  | (name, imageID, true) =>
    match lister ns name with
    | none => .error .notFound
    | some stream =>
      match resolveImageID stream imageID with
      | .error e => .error e
      | .ok event =>
        if event.dockerImageReference = "" then
          .error (.otherErr "the referenced image stream image does not have a pull spec")
        else .ok { kind := "DockerImage", nspace := "", name := event.dockerImageReference }

/-- resolveImageStreamTag (build_controller.go). -/
def resolveImageStreamTag (ref : ObjectReference)
    (lister : String → String → Option ImageStream) (defaultNamespace : String) :
    Except GoErr ObjectReference :=
  let ns := if ref.nspace = "" then defaultNamespace else ref.nspace
  match splitImageStreamTag ref.name with
  | (_, _, false) => .error .invalidImageRefs
  | (name, tag, true) =>
    match lister ns name with
    | none => .error .notFound
    | some stream =>
      match resolveLatestTaggedImage stream tag with
      | some newRef => .ok { kind := "DockerImage", nspace := "", name := newRef }
      | none => .error (.otherErr "the referenced image stream tag does not exist")

/-- resolveOutputDockerImageReference (build_controller.go): rewrite the output spec to
a concrete docker image reference. -/
def resolveOutputDockerImageReference (b : Build)
    (lister : String → String → Option ImageStream) : Except GoErr Build :=
  match b.spec.output.toRef with
  | none => .ok b
  | some ref =>
    if ref.name = "" then .ok b
    else
      match ref.kind with
      | "ImageStream" =>
        match resolveImageStreamLocation ref lister b.nspace with
        | .error e => .error e
        | .ok newRef =>
          .ok { b with spec.output.toRef := some { kind := "DockerImage", nspace := "", name := newRef } }
      | "ImageStreamTag" =>
        match resolveImageStreamLocation ref lister b.nspace with
        | .error e => .error e
        | .ok newRef =>
          .ok { b with spec.output.toRef := some { kind := "DockerImage", nspace := "", name := newRef } }
      | _ => .ok b

/-- resolveImageReferences (build_controller.go): resolve every docker image reference
computed from the build spec, updating the output spec as well; interest in the
needed streams is registered on the trigger queue (recorded as effects). -/
def resolveImageReferences (b : Build) (update : buildUpdate)
    (lister : String → String → Option ImageStream) :
    Build × buildUpdate × Option GoErr × List Effect :=
  match unresolvedImageStreamReferences b with
  | .error e => (b, update, some e, [])
  | .ok streams =>
    if streams.isEmpty then (b, update, none, [])
    else
      let buildKey := resourceName b.nspace b.name
      let fx0 := [Effect.isqAdd buildKey streams]
      match resolveOutputDockerImageReference b lister with
      | .error e =>
        let u := (update.setReason statusReasonInvalidOutputReference).setMessage
          statusMessageInvalidOutputRef
        let fx :=
          if isNoIntegratedRegistryErr e then fx0 ++ [Effect.eventf "Warning" "InvalidOutput"]
          else fx0
        (b, u, some e, fx)
      | .ok b2 =>
        match mutateBuildRefs b2 (fun ref =>
          match ref.kind with
          | "ImageStreamImage" => resolveImageStreamImage ref lister b.nspace
          | "ImageStreamTag" => resolveImageStreamTag ref lister b.nspace
          | _ => .ok ref) with
        | (b3, errs) =>
          if errs.isEmpty then
            (b3, update, none, fx0 ++ [Effect.isqRemove buildKey streams])
          else
            let u := (update.setReason statusReasonInvalidImageReference).setMessage
              statusMessageInvalidImageRef
            (b3, u, some (.agg errs), fx0)

/-- createPodSpec (build_controller.go): reset the transient status fields on the build
copy, then ask the strategy factory for a pod spec and run it through defaults,
overrides and the env-var resolver. -/
def createPodSpec (bc : Env) (b : Build) (includeAdditionalCA : Bool) : Except GoErr Pod :=
  let b :=
    match b.spec.output.toRef with
    | some t => { b with status.outputDockerImageReference := t.name }
    | none => b
  let b := { b with status.reason := "", status.message := "" }
  match bc.createStrategy b includeAdditionalCA with
  | .error e =>
    if isFatal e then .error (.fatalErr "failed to create a build pod spec")
    else .error (.otherErr "failed to create a build pod spec")
  | .ok podSpec =>
    match bc.applyDefaultsErr with
    | some _ => .error (.otherErr "failed to apply build defaults")
    | none =>
      match bc.applyOverridesErr with
      | some _ => .error (.otherErr "failed to apply build overrides")
      | none =>
        match bc.resolveValueFromErr with
        | some e => .error e
        | none => .ok podSpec

/-- The loop of createBuildPod that looks up pull secrets for the source input
images; the first failure aborts. -/
def resolveSourceImageSecrets (bc : Env) (b : Build) :
    List SourceImage → Except GoErr (List SourceImage)
  | [] => .ok []
  | img :: rest =>
    match img.pullSecret with
    | some _ =>
      match resolveSourceImageSecrets bc b rest with
      | .error e => .error e
      | .ok l => .ok (img :: l)
    | none =>
      match resolveImageSecretAsReference bc b img.fromRef.name with
      | .error e => .error e
      | .ok s =>
        match resolveSourceImageSecrets bc b rest with
        | .error e => .error e
        | .ok l => .ok ({ img with pullSecret := some s } :: l)

/-- The switch of createBuildPod that stores a freshly resolved pull secret into the
matching strategy variant. -/
def setStrategyPullSecret (b : Build) (s : String) : Build :=
  match b.spec.strategy.sourceStrategy with
  | some st => { b with spec.strategy.sourceStrategy := some { st with pullSecret := some s } }
  | none =>
    match b.spec.strategy.dockerStrategy with
    | some st => { b with spec.strategy.dockerStrategy := some { st with pullSecret := some s } }
    | none =>
      match b.spec.strategy.customStrategy with
      | some st => { b with spec.strategy.customStrategy := some { st with pullSecret := some s } }
      | none => b

/-- The pull secret and image name selected by the strategy switch of
createBuildPod. -/
def strategyPullSecretAndImage (b : Build) : Option String × String :=
  match b.spec.strategy.sourceStrategy with
  | some s => (s.pullSecret, s.fromRef.name)
  | none =>
    match b.spec.strategy.dockerStrategy with
    | some d =>
      (d.pullSecret, match d.fromRef with | some r => r.name | none => "")
    | none =>
      match b.spec.strategy.customStrategy with
      | some c => (c.pullSecret, c.fromRef.name)
      | none => (none, "")

/-- createBuildCAConfigMap (build_controller.go): request creation of the certificate
authority configMap owned by the build pod. -/
def createBuildCAConfigMap (bc : Env) (b : Build) (buildPod : Pod) (update : buildUpdate) :
    (buildUpdate × Option GoErr) × List Effect :=
  let fx := [Effect.configMapCreateReq buildPod.nspace (getBuildCAConfigMapName b)]
  match bc.configMapCreateErr with
  | some _ =>
    (((update.setReason statusReasonCannotCreateCAConfigMap).setMessage
        statusMessageCannotCreateCAConfigMap,
      some (.otherErr "failed to create build certificate authority configMap")),
     fx ++ [Effect.eventf "Warning" "FailedCreate"])
  | none => ((update, none), fx)

/-- The tail of createBuildPod after the pod exists: transition to Pending and record
push secret, pod name and output reference on the update. -/
def createBuildPodFinish (b : Build) (buildPod : Pod) (pushSecret : Option String) :
    buildUpdate :=
  let update := transitionToPhase .Pending "" ""
  let update :=
    match pushSecret with
    | some s => update.setPushSecret s
    | none => update
  let update := update.setPodNameAnn buildPod.name
  match b.spec.output.toRef with
  | some t => update.setOutputRef t.name
  | none => update

/-- The push-secret lookup step of createBuildPod: the user-provided secret wins,
else the service-account secrets are consulted for the output image. -/
def resolvePushSecret (bc : Env) (b : Build) : Except GoErr (Option String) :=
  match b.spec.output.pushSecret with
  | some s => .ok (some s)
  | none =>
    match b.spec.output.toRef with
    | some t =>
      if t.name = "" then .ok none
      else
        match resolveImageSecretAsReference bc b t.name with
        | .ok s => .ok (some s)
        | .error e => .error e
    | none => .ok none

/-- The pull-secret lookup step of createBuildPod: a strategy without an explicit
pull secret gets one resolved and stored. -/
def resolvePullSecret (bc : Env) (b : Build) : Except GoErr Build :=
  match (strategyPullSecretAndImage b).1 with
  | some _ => .ok b
  | none =>
    match resolveImageSecretAsReference bc b (strategyPullSecretAndImage b).2 with
    | .error e => .error e
    | .ok s => .ok (setStrategyPullSecret b s)

/-- The AlreadyExists recovery of createBuildPod: fetch the existing pod, detect a
foreign pod, and verify or create the CA configMap. -/
def createBuildPodExisting (bc : Env) (b : Build) (buildPod : Pod)
    (pushSecret : Option String) (update : buildUpdate) (fx : List Effect) :
    Option buildUpdate × Option GoErr × List Effect :=
  match bc.podGetExisting with
  | .error ge => (none, some ge, fx)
  | .ok existingPod =>
    if !hasOwnerReference existingPod b then
      (some (transitionToPhase .Error statusReasonBuildPodExists
        statusMessageBuildPodExists), none, fx)
    else
      match bc.findCAConfigMap with
      | .error _ =>
        (some update, some (.otherErr "could not find certificate authority for build"), fx)
      | .ok hasCAMap =>
        if hasCAMap then
          (some (createBuildPodFinish b buildPod pushSecret), none, fx)
        else
          match createBuildCAConfigMap bc b existingPod update with
          | ((u2, some ce), fx2) => (some u2, some ce, fx ++ fx2)
          | ((_, none), fx2) =>
            (some (createBuildPodFinish b buildPod pushSecret), none, fx ++ fx2)

/-- createBuildPod (build_controller.go): resolve image references and secrets, build
the pod spec and request pod plus CA configMap creation. -/
def createBuildPod (bc : Env) (build : Build) : Option buildUpdate × Option GoErr × List Effect :=
  match resolveImageReferences build ({} : buildUpdate) bc.streams with
  | (_, update, some e, fx) =>
    if hasError isNotFoundErr e then (some update, none, fx)
    else (some update, some e, fx)
  | (b0, update, none, fx) =>
    match resolvePushSecret bc b0 with
    | .error e =>
      (some ((update.setReason statusReasonCannotRetrieveServiceAccount).setMessage
        statusMessageCannotRetrieveServiceAccount), some e, fx)
    | .ok pushSecret =>
      match resolvePullSecret bc { b0 with spec.output.pushSecret := pushSecret } with
      | .error e =>
        (some ((update.setReason statusReasonCannotRetrieveServiceAccount).setMessage
          statusMessageCannotRetrieveServiceAccount), some e, fx)
      | .ok b1 =>
        match resolveSourceImageSecrets bc b1 b1.spec.source.images with
        | .error e =>
          (some ((update.setReason statusReasonCannotRetrieveServiceAccount).setMessage
            statusMessageCannotRetrieveServiceAccount), some e, fx)
        | .ok imgs =>
          match createPodSpec bc { b1 with spec.source.images := imgs }
              (!bc.additionalTrustedCAData.isEmpty) with
          | .error e =>
            let u :=
              if isEnvVarResolverErr e then
                transitionToPhase .Error statusReasonUnresolvableEnvironmentVariable
                  statusMessageUnresolvableEnvironmentVariable
              else
                (update.setReason statusReasonCannotCreateBuildPodSpec).setMessage
                  statusMessageCannotCreateBuildPodSpec
            (some u, none, fx)
          | .ok buildPod =>
            let b := { b1 with spec.source.images := imgs }
            match bc.podCreate buildPod with
            | .error e =>
              if isAlreadyExistsErr e then
                createBuildPodExisting bc b buildPod pushSecret update
                  (fx ++ [Effect.podCreateReq b.nspace buildPod.name,
                          Effect.eventf "Warning" "FailedCreate"])
              else
                (some ((update.setReason statusReasonCannotCreateBuildPod).setMessage
                  statusMessageCannotCreateBuildPod),
                 some (.otherErr "failed to create build pod"),
                 fx ++ [Effect.podCreateReq b.nspace buildPod.name,
                        Effect.eventf "Warning" "FailedCreate"])
            | .ok pod =>
              match createBuildCAConfigMap bc b pod update with
              | ((u2, some ce), fx2) =>
                (some u2, some ce,
                 fx ++ [Effect.podCreateReq b.nspace buildPod.name] ++ fx2)
              | ((_, none), fx2) =>
                (some (createBuildPodFinish b buildPod pushSecret), none,
                 fx ++ [Effect.podCreateReq b.nspace buildPod.name] ++ fx2)

/-- handleNewBuild (build_controller.go): check the run policy and create the pod, or
recover when a pod already exists. -/
def handleNewBuild (bc : Env) (build : Build) (pod : Option Pod) :
    Option buildUpdate × Option GoErr × List Effect :=
  match pod with
  | some p =>
    if hasOwnerReference p build then handleActiveBuild bc build (some p)
    else
      (some (transitionToPhase .Error statusReasonBuildPodExists statusMessageBuildPodExists),
       none, [])
  | none =>
    match bc.runPolicy with
    | none => (none, some (.otherErr "unable to determine build policy"), [])
    | some pol =>
      match pol build with
      | .error e => (none, some e, [])
      | .ok run => if run then createBuildPod bc build else (none, none, [])

/-- The pod-name recording step of updateBuild: ensure a pod-name marker is carried
on the applied update when a pod is available. -/
def applyPodNameAnn (b : Build) (update : buildUpdate) (pod : Option Pod) : buildUpdate :=
  match pod with
  | some p =>
    if update.podNameAnn = none ∧ !hasBuildPodNameAnn b then update.setPodNameAnn p.name
    else update
  | none => update

/-- The application tail of updateBuild: record the pod-name marker if needed, issue
the patch, then emit lifecycle events and completion handling on a transition. -/
def updateBuildApply (bc : Env) (b : Build) (update0 : buildUpdate) (pod : Option Pod)
    (transitionTo : Option BuildPhase) (fx0 : List Effect) : Option GoErr × List Effect :=
  let update := applyPodNameAnn b update0 pod
  let fx := fx0 ++ [Effect.patch b.nspace b.name update]
  match bc.patchResult b update with
  | .error e => (some e, fx)
  | .ok _ =>
    match transitionTo with
    | none => (none, fx)
    | some p =>
      let fx := fx ++
        (match p with
         | .Running => [Effect.eventf "Normal" "BuildStarted"]
         | .Cancelled => [Effect.eventf "Normal" "BuildCancelled"]
         | .Complete => [Effect.eventf "Normal" "BuildCompleted"]
         | .Error => [Effect.eventf "Normal" "BuildFailed"]
         | .Failed => [Effect.eventf "Normal" "BuildFailed"]
         | _ => [])
      let fx :=
        if isTerminalPhase p then
          fx ++ [Effect.enqueueBuildConfig (resourceName b.nspace (configNameForBuild b)),
                 Effect.prune b.nspace b.name]
        else fx
      (none, fx)

/-- The state-transition decision at the head of updateBuild (build_controller.go):
whether the update is a phase transition (and to which phase), together with the
possibly adjusted update — a Failed build whose completion time is being set is
treated as a Failed-to-Failed transition. -/
def updateBuildDecision (b : Build) (update0 : buildUpdate) :
    Option BuildPhase × buildUpdate :=
  match update0.phase with
  | some p =>
    if p ≠ b.status.phase then (some p, update0)
    else if b.status.phase = BuildPhase.Failed ∧ update0.completionTime ≠ none then
      (some BuildPhase.Failed, update0.setPhase .Failed)
    else (none, update0)
  | none =>
    if b.status.phase = BuildPhase.Failed ∧ update0.completionTime ≠ none then
      (some BuildPhase.Failed, update0.setPhase .Failed)
    else (none, update0)

/-- updateBuild (build_controller.go): the single place where a build update is
validated, completed and applied as a patch.  The leading updateCall effect records
the invocation itself. -/
def updateBuild (bc : Env) (b : Build) (update0 : buildUpdate) (pod : Option Pod) :
    Option GoErr × List Effect :=
  let fx0 := [Effect.updateCall]
  let d := updateBuildDecision b update0
  match d.1 with
  | some toPhase =>
    if !isValidTransition b.status.phase toPhase then
      (some (.otherErr "invalid phase transition"), fx0)
    else
      let update :=
        if isTerminalPhase toPhase then setBuildCompletionData b pod d.2 bc.now else d.2
      updateBuildApply bc b update pod (some toPhase) fx0
  | none => updateBuildApply bc b d.2 pod none fx0

/-- The dispatch switch of handleBuild (build_controller.go). -/
def handleBuildDispatch (bc : Env) (build : Build) (pod : Option Pod) :
    Option buildUpdate × Option GoErr × List Effect :=
  if shouldCancel build then cancelBuild bc build
  else if build.status.phase = BuildPhase.New then handleNewBuild bc build pod
  else if build.status.phase = BuildPhase.Pending ∨ build.status.phase = BuildPhase.Running then
    handleActiveBuild bc build pod
  else if isBuildComplete build then handleCompletedBuild bc.now build pod
  else (none, none, [])

/-- handleBuild (build_controller.go): prune pipeline builds, skip ignorable builds,
fetch the companion pod from the cache, dispatch to a handler and apply a non-empty
update; the first non-nil of handler error and update error is returned. -/
def handleBuild (bc : Env) (build : Build) : Option GoErr × List Effect :=
  let fx0 :=
    if build.spec.strategy.jenkinsPipelineStrategy ∧ isBuildComplete build then
      [Effect.prune build.nspace build.name]
    else []
  if shouldIgnore build then (none, fx0)
  else
    let pod := bc.podStoreGet
    let d := handleBuildDispatch bc build pod
    let ue :=
      match d.1 with
      | some u => if !u.isEmpty then updateBuild bc build u pod else (none, [])
      | none => (none, [])
    (match d.2.1 with
     | some e => some e
     | none => ue.1,
     fx0 ++ d.2.2 ++ ue.2)

/-! Specification-side definitions used to compare behaviour against the
specification text, and effect classifiers used by the theorems. -/

/-- The log-snippet derivation exactly as the specification words it: trailing
newlines trimmed, the last five lines kept (fewer when the message has fewer), and
every kept line of more than 120 characters replaced by its first 58 characters, an
ellipsis and its last 59 characters. -/
def specLogSnippet (msg : String) : String :=
  let lines := splitNewlines (trimRightNewlines msg)
  let kept := lines.drop (lines.length - min maxExcerptLength lines.length)
  joinNewlines (kept.map (fun line =>
    if line.length > 120 then
      String.mk (line.toList.take 58) ++ "..." ++ String.mk (line.toList.drop (line.length - 59))
    else line))

/-- Classifies the effects that only updateBuild can produce. -/
def isUpdateBuildEffect : Effect → Bool
  | .patch _ _ _ => true
  | .updateCall => true
  | _ => false

/-- Classifies pod-creation requests. -/
def isPodCreateEffect : Effect → Bool
  | .podCreateReq _ _ => true
  | _ => false

/-- Classifies the effect recording an updateBuild invocation. -/
def isCallEffect : Effect → Bool
  | .updateCall => true
  | _ => false

/-- Classifies patches. -/
def isPatchEffect : Effect → Bool
  | .patch _ _ _ => true
  | _ => false

/-! Concrete scenario inputs for the claims. -/

/-- A build in New whose output is an ImageStreamTag in its own namespace. -/
def c2cexBuild : Build :=
  { nspace := "ns1", name := "b1",
    spec := { output := { toRef := some { kind := "ImageStreamTag", name := "is:latest" } } } }

/-- An environment whose only image stream has no dockerImageRepository configured. -/
def c2cexEnv : Env :=
  { streams := fun ns n =>
      if ns = "ns1" && n = "is" then some { dockerImageRepository := "", tags := [] } else none }

/-- An active build in Pending. -/
def c3exBuild : Build := { nspace := "n", name := "b", status := { phase := .Pending } }

/-- A failed, deletion-marked pod that was OOM killed. -/
def c3cexPod : Pod :=
  { name := "b-build", deletionTimestamp := some 1,
    status := { phase := .Failed, reason := "OOMKilled" } }

/-- A failed, deletion-marked pod that was not OOM killed. -/
def c3okPod : Pod :=
  { name := "b-build", deletionTimestamp := some 2, status := { phase := .Failed } }

/-- A terminal build in Complete. -/
def c4cexBuild : Build := { nspace := "n", name := "b4", status := { phase := .Complete } }

/-- A succeeded pod whose status reason records an OOM kill. -/
def c4cexPod : Pod := { status := { phase := .Succeeded, reason := "OOMKilled" } }

/-- A succeeded pod with no OOM kill. -/
def c4okPod : Pod := { status := { phase := .Succeeded } }

/-- A build whose recorded start timestamp lies in the future of the clock. -/
def c5cexBuild : Build :=
  { status := { phase := .Complete, startTimestamp := some 5000 } }

/-- A failed build with no completion metadata. -/
def c5okBuild : Build :=
  { status := { phase := .Failed, startTimestamp := some 1000 } }

/-- A failed build with an empty logSnippet. -/
def c6okBuild : Build := { nspace := "n", name := "b6", status := { phase := .Failed } }

/-- The terminated state of the first container of c6okPod: a six-line message. -/
def c6okTerm : ContainerStateTerminated := { exitCode := 1, message := "l1\nl2\nl3\nl4\nl5\nl6" }

/-- The first container status of c6okPod. -/
def c6okStatus : ContainerStatus := { name := "build", state := { terminated := some c6okTerm } }

/-- A pod whose first container terminated with a six-line message. -/
def c6okPod : Pod :=
  { status := { phase := .Failed, containerStatuses := [c6okStatus] } }

/-- A running build. -/
def c7cexBuild : Build := { nspace := "n", name := "b7", status := { phase := .Running } }

/-- An environment whose pod cache reports the companion pod of c7cexBuild as
Pending, which proposes the invalid Running-to-Pending transition. -/
def c7cexEnv : Env :=
  { podStoreGet := some { name := "b7-build", status := { phase := .Pending } } }

/-- A pending build. -/
def c7okBuild : Build := { nspace := "n", name := "b7w", status := { phase := .Pending } }

/-- An environment whose pod cache reports the companion pod of c7okBuild as
Running, which proposes a valid transition. -/
def c7okEnv : Env :=
  { podStoreGet := some { name := "b7w-build", status := { phase := .Running, startTime := some 9 } } }

/-- A pending build for the git-clone boundary scenario. -/
def c8okBuild : Build := { nspace := "n", name := "b8", status := { phase := .Pending } }

/-- A pending pod whose git-clone init container is running. -/
def c8okPod : Pod :=
  { name := "b8-build",
    status := { phase := .Pending, startTime := some 42,
                initContainerStatuses := [{ name := "git-clone", state := { running := true } }] } }

/-- A trigger queue holding one bucket with one awaiting build. -/
def c9okQueue : ResourceTriggerQueue :=
  { queue := fun k => if k = "ns1/is" then ["ns1/b1"] else [] }

/-- A build without the pod-name marker. -/
def c10okBuild : Build := { nspace := "n", name := "b10", status := { phase := .Pending } }

/-- The companion pod of c10okBuild. -/
def c10okPod : Pod := { name := "b10-build", status := { phase := .Pending } }

/-! Theorems. -/

/-- Frame property of setBuildCompletionData: it only ever touches the start time,
completion time, duration and logSnippet fields of the update. -/
theorem setBuildCompletionData_frame (b : Build) (pod : Option Pod) (u : buildUpdate)
    (now : Time) :
    (setBuildCompletionData b pod u now).phase = u.phase ∧
    (setBuildCompletionData b pod u now).reason = u.reason ∧
    (setBuildCompletionData b pod u now).message = u.message ∧
    (setBuildCompletionData b pod u now).outputRef = u.outputRef ∧
    (setBuildCompletionData b pod u now).podNameAnn = u.podNameAnn ∧
    (setBuildCompletionData b pod u now).pushSecret = u.pushSecret := by
  unfold setBuildCompletionData
  repeat' split
  all_goals simp [buildUpdate.setStartTime, buildUpdate.setCompletionTime,
    buildUpdate.setDuration, buildUpdate.setLogSnippet]

/-- C1: the legal-transition predicate on build phases holds exactly as specified —
a transition is valid iff the phases are equal, or the source is not terminal and it
is not one of the forbidden backward moves from Pending or Running. -/
theorem c1_valid_transition_spec :
    ∀ f t : BuildPhase, isValidTransition f t = legalTransitionSpec f t := by
  decide

/-- C3 (amended): for every active build whose pod is Failed with a deletion
timestamp set, handleActiveBuild transitions to Error with reason BuildPodDeleted —
provided the pod is not OOM killed (the OOM check has precedence and yields
Failed/OutOfMemoryKilled) and, for a Pending build, no git-clone init container
reports Running (which would instead be treated as a Running pod). -/
theorem c3_failed_pod_deleted (bc : Env) (b : Build) (pod : Pod)
    (hactive : b.status.phase = BuildPhase.Pending ∨ b.status.phase = BuildPhase.Running)
    (hpod : pod.status.phase = PodPhase.Failed)
    (hdel : pod.deletionTimestamp ≠ none)
    (hoom : isOOMKilled (some pod) = false)
    (hgit : pod.status.initContainerStatuses.any
      (fun c => c.name = gitCloneContainer && c.state.running) = false) :
    handleActiveBuild bc b (some pod) =
      (some (transitionToPhase .Error statusReasonBuildPodDeleted statusMessageBuildPodDeleted),
       none, []) := by
  rcases hactive with h | h <;>
    simp [handleActiveBuild, hpod, hgit, hoom, hdel, h]

/-- C3 counterexample: an active build in Pending with a Failed, deletion-marked pod
that was OOM killed transitions to Failed/OutOfMemoryKilled, not to
Error/BuildPodDeleted, refuting the claim as stated. -/
theorem c3_counterexample :
    c3exBuild.status.phase = BuildPhase.Pending ∧
    c3cexPod.status.phase = PodPhase.Failed ∧
    c3cexPod.deletionTimestamp = some 1 ∧
    (handleActiveBuild {} c3exBuild (some c3cexPod)).1 =
      some (transitionToPhase .Failed statusReasonOutOfMemoryKilled
        statusMessageOutOfMemoryKilled) ∧
    (transitionToPhase .Failed statusReasonOutOfMemoryKilled
      statusMessageOutOfMemoryKilled).phase ≠ some BuildPhase.Error := by
  refine ⟨rfl, rfl, rfl, rfl, by decide⟩

/-- C3 witness: the amended theorem applied to a concrete Pending build with a
Failed, deletion-marked, non-OOM pod. -/
theorem c3_witness :
    handleActiveBuild {} c3exBuild (some c3okPod) =
      (some (transitionToPhase .Error statusReasonBuildPodDeleted statusMessageBuildPodDeleted),
       none, []) :=
  c3_failed_pod_deleted {} c3exBuild c3okPod (Or.inl rfl) rfl (by decide) rfl rfl

/-- C4 (amended): for every terminal build whose pod is not OOM killed,
handleCompletedBuild is pure metadata repair — it returns no error, produces no side
effects, and its update leaves phase, reason, message, output reference, pod-name
marker and push secret unset, so only the start and completion timestamps, the
duration and the logSnippet may be filled.  When the pod is OOM killed the handler
instead proposes Failed/OutOfMemoryKilled, which may differ from the current
phase. -/
theorem c4_completed_build_frame (now : Time) (b : Build) (pod : Option Pod)
    (hterm : isTerminalPhase b.status.phase = true) (hoom : isOOMKilled pod = false) :
    (handleCompletedBuild now b pod).2.1 = none ∧
    (handleCompletedBuild now b pod).2.2 = [] ∧
    ∃ u, (handleCompletedBuild now b pod).1 = some u ∧
      u.phase = none ∧ u.reason = none ∧ u.message = none ∧
      u.outputRef = none ∧ u.podNameAnn = none ∧ u.pushSecret = none := by
  refine ⟨by simp [handleCompletedBuild], by simp [handleCompletedBuild], ?_⟩
  refine ⟨setBuildCompletionData b pod ({} : buildUpdate) now, ?_, ?_, ?_, ?_, ?_, ?_, ?_⟩
  · simp [handleCompletedBuild, hoom]
  all_goals
    have h := setBuildCompletionData_frame b pod ({} : buildUpdate) now
    tauto

/-- C4 counterexample: on a terminal build in Complete whose pod records an OOM kill,
handleCompletedBuild proposes phase Failed, different from the current phase,
refuting the claim as stated. -/
theorem c4_counterexample :
    isTerminalPhase c4cexBuild.status.phase = true ∧
    c4cexBuild.status.phase = BuildPhase.Complete ∧
    ((handleCompletedBuild 0 c4cexBuild (some c4cexPod)).1.map (fun u => u.phase)) =
      some (some BuildPhase.Failed) ∧
    some BuildPhase.Failed ≠ some BuildPhase.Complete := by
  refine ⟨rfl, rfl, rfl, by decide⟩

/-- C4 witness: the amended theorem applied to a concrete Complete build with a
non-OOM pod. -/
theorem c4_witness :
    (handleCompletedBuild 0 c4cexBuild (some c4okPod)).2.1 = none ∧
    (handleCompletedBuild 0 c4cexBuild (some c4okPod)).2.2 = [] ∧
    ∃ u, (handleCompletedBuild 0 c4cexBuild (some c4okPod)).1 = some u ∧
      u.phase = none ∧ u.reason = none ∧ u.message = none ∧
      u.outputRef = none ∧ u.podNameAnn = none ∧ u.pushSecret = none :=
  c4_completed_build_frame 0 c4cexBuild (some c4okPod) rfl rfl

/-- C5 (amended): setBuildCompletionData sets the completion timestamp iff it is not
already set; when it does, the completion timestamp is now and the duration is the
completion timestamp minus the effective start timestamp, both rounded to RFC-3339
second precision; and the start timestamp it settles on is at most the completion
timestamp provided neither the recorded start timestamp nor the pod start time lies
in the future of the clock. -/
theorem c5_completion_data (b : Build) (pod : Option Pod) (u : buildUpdate) (now : Time)
    (hc : u.completionTime = none) (hd : u.duration = none) :
    (b.status.completionTimestamp = none →
      (setBuildCompletionData b pod u now).completionTime = some now ∧
      (setBuildCompletionData b pod u now).duration =
        some (rfc3339Copy now - rfc3339Copy (effectiveStartTime b pod now))) ∧
    (b.status.completionTimestamp ≠ none →
      (setBuildCompletionData b pod u now).completionTime = none ∧
      (setBuildCompletionData b pod u now).duration = none) ∧
    ((∀ t, b.status.startTimestamp = some t → t ≤ now) →
     (∀ p t, pod = some p → p.status.startTime = some t → t ≤ now) →
     effectiveStartTime b pod now ≤ now) := by
  refine ⟨?_, ?_, ?_⟩
  · intro hnone
    unfold setBuildCompletionData
    repeat' split
    all_goals
      simp_all [buildUpdate.setStartTime, buildUpdate.setCompletionTime,
        buildUpdate.setDuration, buildUpdate.setLogSnippet]
  · intro hsome
    unfold setBuildCompletionData
    repeat' split
    all_goals
      simp_all [buildUpdate.setStartTime, buildUpdate.setCompletionTime,
        buildUpdate.setDuration, buildUpdate.setLogSnippet]
  · intro h1 h2
    unfold effectiveStartTime
    match hb : b.status.startTimestamp with
    | some t => exact h1 t hb
    | none =>
      match hp : pod with
      | some p =>
        match hs : p.status.startTime with
        | some t => simp [hs]; exact h2 p t rfl hs
        | none => simp [hs]
      | none => simp

/-- C5 counterexample: with a recorded start timestamp of 5000 and a clock reading
3000, setBuildCompletionData sets the completion timestamp to 3000 while leaving the
start timestamp at 5000, so the start timestamp exceeds the completion timestamp,
refuting the claim as stated. -/
theorem c5_counterexample :
    c5cexBuild.status.startTimestamp = some 5000 ∧
    c5cexBuild.status.completionTimestamp = none ∧
    (setBuildCompletionData c5cexBuild none {} 3000).completionTime = some 3000 ∧
    (setBuildCompletionData c5cexBuild none {} 3000).startTime = none ∧
    ¬ (5000 : Int) ≤ 3000 := by
  refine ⟨rfl, rfl, rfl, rfl, by decide⟩

/-- C5 witness: the amended theorem applied to a concrete build whose start
timestamp 1000 precedes the clock reading 4500. -/
theorem c5_witness :
    ((c5okBuild.status.completionTimestamp = none →
      (setBuildCompletionData c5okBuild none {} 4500).completionTime = some 4500 ∧
      (setBuildCompletionData c5okBuild none {} 4500).duration =
        some (rfc3339Copy 4500 - rfc3339Copy (effectiveStartTime c5okBuild none 4500))) ∧
    (c5okBuild.status.completionTimestamp ≠ none →
      (setBuildCompletionData c5okBuild none {} 4500).completionTime = none ∧
      (setBuildCompletionData c5okBuild none {} 4500).duration = none) ∧
    ((∀ t, c5okBuild.status.startTimestamp = some t → t ≤ 4500) →
     (∀ p t, (none : Option Pod) = some p → p.status.startTime = some t → t ≤ 4500) →
     effectiveStartTime c5okBuild none 4500 ≤ 4500)) ∧
    effectiveStartTime c5okBuild none 4500 ≤ 4500 := by
  refine ⟨c5_completion_data c5okBuild none {} 4500 rfl rfl, ?_⟩
  exact (c5_completion_data c5okBuild none {} 4500 rfl rfl).2.2
    (by intro t ht; simp [c5okBuild] at ht; rw [← ht]; decide)
    (by intro p t hp; cases hp)

/-- The inline log-snippet computation of setBuildCompletionData agrees with the
specification wording of the derivation. -/
theorem deriveLogSnippet_eq_spec (msg : String) : deriveLogSnippet msg = specLogSnippet msg := by
  have h : ∀ n : Nat, (if n < maxExcerptLength then n else maxExcerptLength) =
      min maxExcerptLength n := by
    intro n
    rcases Nat.lt_or_ge n maxExcerptLength with hn | hn
    · rw [if_pos hn, Nat.min_eq_right (Nat.le_of_lt hn)]
    · rw [if_neg (Nat.not_lt.mpr hn), Nat.min_eq_left hn]
  simp only [deriveLogSnippet, specLogSnippet, h]

set_option maxRecDepth 8000 in
/-- C6: for every failed build with an empty logSnippet whose pod's first container
terminated with a non-empty message, the derived logSnippet is exactly the
specification's derivation — trailing newlines trimmed, the last five lines kept,
long lines elided to first 58 plus ellipsis plus last 59 — and at the boundaries a
six-line message yields exactly five lines while a 200-character line becomes 58
characters, an ellipsis and 59 characters. -/
theorem c6_log_snippet (b : Build) (p : Pod) (u : buildUpdate) (now : Time)
    (c : ContainerStatus) (rest : List ContainerStatus) (t : ContainerStateTerminated)
    (hphase : b.status.phase = BuildPhase.Failed)
    (hsnip : b.status.logSnippet = "")
    (hcs : p.status.containerStatuses = c :: rest)
    (hterm : c.state.terminated = some t)
    (hne : t.message ≠ "") :
    (setBuildCompletionData b (some p) u now).logSnippet = some (specLogSnippet t.message) ∧
    splitNewlines (specLogSnippet "l1\nl2\nl3\nl4\nl5\nl6") = ["l2", "l3", "l4", "l5", "l6"] ∧
    specLogSnippet (String.mk (List.replicate 200 'a')) =
      String.mk (List.replicate 58 'a') ++ "..." ++ String.mk (List.replicate 59 'a') := by
  refine ⟨?_, by decide, by decide⟩
  rw [← deriveLogSnippet_eq_spec]
  simp only [setBuildCompletionData]
  rw [if_pos ⟨Or.inl hphase, hsnip⟩]
  simp only [hcs, hterm]
  rw [if_neg hne]
  split <;> split <;>
    simp [buildUpdate.setStartTime, buildUpdate.setCompletionTime,
      buildUpdate.setDuration, buildUpdate.setLogSnippet]

set_option maxRecDepth 8000 in
/-- C6 witness: the theorem applied to a concrete failed build whose pod message has
six lines; the snippet keeps the last five. -/
theorem c6_witness :
    (setBuildCompletionData c6okBuild (some c6okPod) {} 0).logSnippet =
      some (specLogSnippet c6okTerm.message) ∧
    specLogSnippet c6okTerm.message = "l2\nl3\nl4\nl5\nl6" := by
  refine ⟨(c6_log_snippet c6okBuild c6okPod {} 0 c6okStatus [] c6okTerm rfl rfl rfl rfl
    (by decide)).1, by decide⟩

/-- C8: for every build in Pending or New whose pod reports phase Pending but has a
git-clone init container in state Running, handleActiveBuild treats the pod as
Running and transitions the build to Running, copying the pod start time when
present. -/
theorem c8_git_clone_running (bc : Env) (b : Build) (pod : Pod)
    (hphase : b.status.phase = BuildPhase.Pending ∨ b.status.phase = BuildPhase.New)
    (hpod : pod.status.phase = PodPhase.Pending)
    (hgit : pod.status.initContainerStatuses.any
      (fun c => c.name = gitCloneContainer && c.state.running) = true) :
    handleActiveBuild bc b (some pod) =
      (some (match pod.status.startTime with
             | some t => (transitionToPhase .Running "" "").setStartTime t
             | none => transitionToPhase .Running "" ""),
       none, []) := by
  rcases hphase with h | h <;>
    simp [handleActiveBuild, hpod, hgit, h]

/-- C8 witness: the theorem applied to a concrete Pending build whose Pending pod
has the git-clone init container running and a start time of 42. -/
theorem c8_witness :
    handleActiveBuild {} c8okBuild (some c8okPod) =
      (some ((transitionToPhase .Running "" "").setStartTime 42), none, []) :=
  c8_git_clone_running {} c8okBuild c8okPod (Or.inl rfl) rfl rfl

/-- Membership after folding the de-duplicating queue add over a list. -/
theorem mem_foldl_buildQueueAdd (l : List String) (bq : List String) (b : String) :
    b ∈ l.foldl buildQueueAdd bq ↔ b ∈ bq ∨ b ∈ l := by
  induction l generalizing bq with
  | nil => simp
  | cons x xs ih =>
    rw [List.foldl_cons, ih]
    unfold buildQueueAdd
    by_cases hx : x ∈ bq
    · rw [if_pos hx]
      constructor
      · rintro (h | h)
        · exact Or.inl h
        · exact Or.inr (List.mem_cons_of_mem x h)
      · rintro (h | h)
        · exact Or.inl h
        · rcases List.mem_cons.mp h with h | h
          · exact Or.inl (h ▸ hx)
          · exact Or.inr h
    · rw [if_neg hx]
      constructor
      · rintro (h | h)
        · rcases List.mem_append.mp h with h | h
          · exact Or.inl h
          · exact Or.inr (List.mem_cons.mpr (Or.inl (List.mem_singleton.mp h)))
        · exact Or.inr (List.mem_cons_of_mem x h)
      · rintro (h | h)
        · exact Or.inl (List.mem_append.mpr (Or.inl h))
        · rcases List.mem_cons.mp h with h | h
          · exact Or.inl (List.mem_append.mpr (Or.inr (List.mem_singleton.mpr h)))
          · exact Or.inr h

/-- The de-duplicating queue add preserves the no-duplicates invariant. -/
theorem nodup_foldl_buildQueueAdd (l : List String) (bq : List String) (h : bq.Nodup) :
    (l.foldl buildQueueAdd bq).Nodup := by
  induction l generalizing bq with
  | nil => exact h
  | cons x xs ih =>
    rw [List.foldl_cons]
    apply ih
    unfold buildQueueAdd
    by_cases hx : x ∈ bq
    · rw [if_pos hx]; exact h
    · rw [if_neg hx]
      simp [List.nodup_append, h, hx]

/-- Folding the queue add does not change the count of a key not in the added list. -/
theorem count_foldl_buildQueueAdd (l : List String) (bq : List String) (b : String)
    (h : b ∉ l) : (l.foldl buildQueueAdd bq).count b = bq.count b := by
  induction l generalizing bq with
  | nil => rfl
  | cons x xs ih =>
    rw [List.foldl_cons]
    have hb : b ∉ xs := fun hx => h (List.mem_cons_of_mem x hx)
    rw [ih _ hb]
    unfold buildQueueAdd
    by_cases hx : x ∈ bq
    · rw [if_pos hx]
    · rw [if_neg hx, List.count_append]
      have : x ≠ b := fun he => h (List.mem_cons.mpr (Or.inl he.symm))
      simp [List.count_singleton, this]

/-- C9: Pop removes and returns the whole bucket of the stream key — a second Pop of
the same key (or a Pop of an unknown key) yields the empty bucket, and other buckets
are untouched — and an ImageStream event enqueues every awaiting build key on the
de-duplicated build queue exactly once, leaving other keys' counts unchanged. -/
theorem c9_pop_and_enqueue (q : ResourceTriggerQueue) (S : String) (bq : List String)
    (hnd : bq.Nodup) :
    (q.Pop S).1 = q.queue S ∧
    (q.Pop S).2.queue S = [] ∧
    ((q.Pop S).2.Pop S).1 = [] ∧
    (∀ k, k ≠ S → (q.Pop S).2.queue k = q.queue k) ∧
    (imageStreamAdded q bq S).1.queue S = [] ∧
    (imageStreamAdded q bq S).2.Nodup ∧
    (∀ b, b ∈ q.queue S → (imageStreamAdded q bq S).2.count b = 1) ∧
    (∀ b, b ∉ q.queue S → (imageStreamAdded q bq S).2.count b = bq.count b) := by
  refine ⟨rfl, by simp [ResourceTriggerQueue.Pop], by simp [ResourceTriggerQueue.Pop], ?_, ?_, ?_, ?_, ?_⟩
  · intro k hk
    simp [ResourceTriggerQueue.Pop, hk]
  · simp [imageStreamAdded, ResourceTriggerQueue.Pop]
  · exact nodup_foldl_buildQueueAdd _ _ hnd
  · intro b hb
    have hmem : b ∈ (imageStreamAdded q bq S).2 := by
      simp only [imageStreamAdded, ResourceTriggerQueue.Pop]
      exact (mem_foldl_buildQueueAdd _ _ _).mpr (Or.inr hb)
    have hnd2 : (imageStreamAdded q bq S).2.Nodup := nodup_foldl_buildQueueAdd _ _ hnd
    exact List.count_eq_one_of_mem hnd2 hmem
  · intro b hb
    simp only [imageStreamAdded, ResourceTriggerQueue.Pop]
    exact count_foldl_buildQueueAdd _ _ _ hb

/-- C9 witness: the theorem applied to a concrete queue holding build ns1/b1 under
stream ns1/is and an empty build queue. -/
theorem c9_witness :
    ([] : List String).Nodup ∧
    (c9okQueue.Pop "ns1/is").1 = c9okQueue.queue "ns1/is" ∧
    ((imageStreamAdded c9okQueue [] "ns1/is").2.count "ns1/b1" = 1) :=
  ⟨List.nodup_nil,
   (c9_pop_and_enqueue c9okQueue "ns1/is" [] List.nodup_nil).1,
   (c9_pop_and_enqueue c9okQueue "ns1/is" [] List.nodup_nil).2.2.2.2.2.2.1 "ns1/b1"
     (by simp [c9okQueue])⟩

/-- setBuildCompletionData leaves the pod-name marker field unchanged. -/
theorem setBuildCompletionData_podNameAnn (b : Build) (pod : Option Pod)
    (u : buildUpdate) (now : Time) :
    (setBuildCompletionData b pod u now).podNameAnn = u.podNameAnn :=
  (setBuildCompletionData_frame b pod u now).2.2.2.2.1

/-- setPhase leaves the pod-name marker field unchanged. -/
theorem setPhase_podNameAnn (u : buildUpdate) (p : BuildPhase) :
    (u.setPhase p).podNameAnn = u.podNameAnn := rfl

/-- Every patch that updateBuildApply issues on behalf of a build lacking the
pod-name marker, with an update not setting it and a pod present, carries the pod
name in the marker field. -/
theorem updateBuildApply_patch_ann (bc : Env) (b : Build) (update : buildUpdate) (p : Pod)
    (tr : Option BuildPhase) (fx0 : List Effect)
    (hfx0 : ∀ ns n u2, Effect.patch ns n u2 ∉ fx0)
    (hu : update.podNameAnn = none) (h2 : hasBuildPodNameAnn b = false) :
    ∀ ns n u2, Effect.patch ns n u2 ∈ (updateBuildApply bc b update (some p) tr fx0).2 →
      u2.podNameAnn = some p.name := by
  intro ns n u2 hmem
  simp only [updateBuildApply, applyPodNameAnn, hu, h2, Bool.not_false, eq_self_iff_true,
    true_and, and_true, and_self, if_true] at hmem
  repeat' split at hmem
  all_goals
    simp only [List.mem_append, List.mem_cons, List.not_mem_nil, or_false, false_or,
      Effect.patch.injEq, reduceCtorEq] at hmem
  all_goals
    rcases hmem with hmem | hmem
  all_goals
    first
    | exact absurd hmem (hfx0 ns n u2)
    | (rcases hmem with ⟨h1', h2', h3'⟩
       rw [h3']
       simp [buildUpdate.setPodNameAnn])

/-- C10: every patch applied by updateBuild while a companion pod exists, for a
build that does not already carry the pod-name marker and an update that does not
set it, carries the pod name in the marker field of the applied update. -/
theorem c10_pod_name_on_patch (bc : Env) (b : Build) (u : buildUpdate) (p : Pod)
    (h1 : u.podNameAnn = none) (h2 : hasBuildPodNameAnn b = false) :
    ∀ ns n u2, Effect.patch ns n u2 ∈ (updateBuild bc b u (some p)).2 →
      u2.podNameAnn = some p.name := by
  intro ns n u2 hmem
  have hann : (updateBuildDecision b u).2.podNameAnn = none := by
    unfold updateBuildDecision
    repeat' split
    all_goals simp [buildUpdate.setPhase, h1]
  simp only [updateBuild] at hmem
  repeat' split at hmem
  all_goals
    first
    | exact absurd hmem (by simp)
    | exact updateBuildApply_patch_ann bc b _ p _ _ (by simp) (by
        first
        | exact hann
        | simp [setBuildCompletionData_podNameAnn, hann]) h2 ns n u2 hmem

/-- C10 witness: the theorem applied to a concrete pending build and its pod; the
single patch issued carries the pod name. -/
theorem c10_witness :
    (({} : buildUpdate).setReason "x").podNameAnn = none ∧
    hasBuildPodNameAnn c10okBuild = false ∧
    ∀ ns n u2, Effect.patch ns n u2 ∈
      (updateBuild {} c10okBuild (({} : buildUpdate).setReason "x") (some c10okPod)).2 →
        u2.podNameAnn = some c10okPod.name :=
  ⟨rfl, rfl, c10_pod_name_on_patch {} c10okBuild (({} : buildUpdate).setReason "x")
    c10okPod rfl rfl⟩

/-- A trace with no updateBuild effects has neither patches nor invocation marks. -/
theorem clean_no_patch_no_call (l : List Effect)
    (h : l.any isUpdateBuildEffect = false) :
    l.any isPatchEffect = false ∧ l.any isCallEffect = false := by
  induction l with
  | nil => simp
  | cons e rest ih =>
    simp only [List.any_cons, Bool.or_eq_false_iff] at h ⊢
    rcases h with ⟨h1, h2⟩
    rcases ih h2 with ⟨ihp, ihc⟩
    refine ⟨⟨?_, ihp⟩, ?_, ihc⟩ <;>
      cases e <;> simp_all [isPatchEffect, isUpdateBuildEffect, isCallEffect]

/-- resolveImageReferences records only queue registrations and events. -/
theorem resolveImageReferences_clean (b : Build) (u : buildUpdate)
    (l : String → String → Option ImageStream) :
    ((resolveImageReferences b u l).2.2.2).any isUpdateBuildEffect = false := by
  unfold resolveImageReferences
  repeat' split
  all_goals simp [isUpdateBuildEffect]

/-- createBuildCAConfigMap records only a configMap request and events. -/
theorem createBuildCAConfigMap_clean (bc : Env) (b : Build) (pod : Pod) (u : buildUpdate) :
    ((createBuildCAConfigMap bc b pod u).2).any isUpdateBuildEffect = false := by
  unfold createBuildCAConfigMap
  repeat' split
  all_goals simp [isUpdateBuildEffect]

/-- The AlreadyExists recovery never issues a patch nor invokes updateBuild. -/
theorem createBuildPodExisting_clean (bc : Env) (b : Build) (buildPod : Pod)
    (pushSecret : Option String) (update : buildUpdate) (fx : List Effect)
    (hfx : fx.any isUpdateBuildEffect = false) :
    ((createBuildPodExisting bc b buildPod pushSecret update fx).2.2).any
      isUpdateBuildEffect = false := by
  unfold createBuildPodExisting
  rcases hpg : bc.podGetExisting with ge | existingPod
  · simp only [hpg]
    exact hfx
  · simp only [hpg]
    by_cases ho : hasOwnerReference existingPod b
    · simp only [ho]
      rcases hfc : bc.findCAConfigMap with e | hasCAMap
      · simp only [hfc]
        exact hfx
      · simp only [hfc]
        cases hasCAMap
        · rcases hcc : createBuildCAConfigMap bc b existingPod update with ⟨⟨u2, oce⟩, fx2⟩
          have h3 := createBuildCAConfigMap_clean bc b existingPod update
          rw [hcc] at h3
          cases oce <;> simp_all [List.any_append]
        · simp [hfx]
    · simp only [ho]
      simp [hfx, isUpdateBuildEffect]

/-- createBuildPod never issues a patch nor invokes updateBuild. -/
theorem createBuildPod_clean (bc : Env) (build : Build) :
    ((createBuildPod bc build).2.2).any isUpdateBuildEffect = false := by
  have hri := resolveImageReferences_clean build ({} : buildUpdate) bc.streams
  unfold createBuildPod
  rcases hr : resolveImageReferences build ({} : buildUpdate) bc.streams with ⟨b0, update, oe, fx⟩
  rw [hr] at hri
  simp only at hri
  rcases oe with _ | e
  case mk.mk.mk.none =>
    simp only [hr]
    rcases hps : resolvePushSecret bc b0 with e | pushSecret
    · simp only [hps]
      exact hri
    · simp only [hps]
      rcases hpl : resolvePullSecret bc { b0 with spec.output.pushSecret := pushSecret } with e | b1
      · simp only [hpl]
        exact hri
      · simp only [hpl]
        rcases hsi : resolveSourceImageSecrets bc b1 b1.spec.source.images with e | imgs
        · simp only [hsi]
          exact hri
        · simp only [hsi]
          rcases hcs : createPodSpec bc { b1 with spec.source.images := imgs }
              (!bc.additionalTrustedCAData.isEmpty) with e | buildPod
          · simp only [hcs]
            exact hri
          · simp only [hcs]
            rcases hpc : bc.podCreate buildPod with e | pod
            · simp only [hpc]
              by_cases hae : isAlreadyExistsErr e
              · simp only [hae, if_true]
                apply createBuildPodExisting_clean
                simp [List.any_append, hri, isUpdateBuildEffect]
              · simp only [hae]
                simp [List.any_append, hri, isUpdateBuildEffect]
            · simp only [hpc]
              rcases hcc : createBuildCAConfigMap bc
                  { b1 with spec.source.images := imgs } pod update with ⟨⟨u2, oce⟩, fx2⟩
              have h3 := createBuildCAConfigMap_clean bc
                { b1 with spec.source.images := imgs } pod update
              rw [hcc] at h3
              cases oce <;> simp_all [List.any_append, isUpdateBuildEffect]
  case mk.mk.mk.some =>
    simp only [hr]
    by_cases hnf : hasError isNotFoundErr e
    · simp [hnf, hri]
    · simp [hnf, hri]

/-- handleActiveBuild records no effects at all. -/
theorem handleActiveBuild_fx (bc : Env) (b : Build) (pod : Option Pod) :
    (handleActiveBuild bc b pod).2.2 = [] := by
  unfold handleActiveBuild
  rcases pod with _ | p
  · rcases hm : bc.findMissingPod with _ | q <;> simp only [hm] <;> rfl
  · rfl

/-- handleCompletedBuild records no effects at all. -/
theorem handleCompletedBuild_fx (now : Time) (b : Build) (pod : Option Pod) :
    (handleCompletedBuild now b pod).2.2 = [] := rfl

/-- cancelBuild records only the pod deletion request. -/
theorem cancelBuild_clean (bc : Env) (b : Build) :
    ((cancelBuild bc b).2.2).any isUpdateBuildEffect = false := by
  unfold cancelBuild
  repeat' split
  all_goals simp [isUpdateBuildEffect]

/-- handleNewBuild never issues a patch nor invokes updateBuild. -/
theorem handleNewBuild_clean (bc : Env) (b : Build) (pod : Option Pod) :
    ((handleNewBuild bc b pod).2.2).any isUpdateBuildEffect = false := by
  unfold handleNewBuild
  repeat' split
  all_goals
    first
    | (rw [handleActiveBuild_fx]; rfl)
    | exact createBuildPod_clean bc b
    | simp [isUpdateBuildEffect]

/-- No handler of the dispatch switch issues a patch or invokes updateBuild on its
own: those effects can only come from the updateBuild step of handleBuild. -/
theorem dispatch_clean (bc : Env) (build : Build) (pod : Option Pod) :
    ((handleBuildDispatch bc build pod).2.2).any isUpdateBuildEffect = false := by
  unfold handleBuildDispatch
  repeat' split
  all_goals
    first
    | exact cancelBuild_clean bc build
    | exact handleNewBuild_clean bc build pod
    | (rw [handleActiveBuild_fx]; rfl)
    | (rw [handleCompletedBuild_fx]; rfl)
    | simp [isUpdateBuildEffect]

/-- The trace of updateBuildApply always contains a patch. -/
theorem updateBuildApply_has_patch (bc : Env) (b : Build) (u : buildUpdate)
    (pod : Option Pod) (tr : Option BuildPhase) (fx0 : List Effect) :
    ((updateBuildApply bc b u pod tr fx0).2).any isPatchEffect = true := by
  unfold updateBuildApply
  rcases tr with _ | ph
  all_goals rcases hpr : bc.patchResult b (applyPodNameAnn b u pod) with e | pb
  all_goals simp only [hpr]
  all_goals try split
  all_goals simp [List.any_append, isPatchEffect]

/-- The trace of updateBuildApply run from updateBuild records the invocation. -/
theorem updateBuildApply_has_call (bc : Env) (b : Build) (u : buildUpdate)
    (pod : Option Pod) (tr : Option BuildPhase) :
    ((updateBuildApply bc b u pod tr [Effect.updateCall]).2).any isCallEffect = true := by
  unfold updateBuildApply
  rcases tr with _ | ph
  all_goals rcases hpr : bc.patchResult b (applyPodNameAnn b u pod) with e | pb
  all_goals simp only [hpr]
  all_goals try split
  all_goals simp [List.any_append, isCallEffect]

/-- The trace of updateBuild always records the invocation. -/
theorem updateBuild_has_call (bc : Env) (b : Build) (u : buildUpdate) (pod : Option Pod) :
    ((updateBuild bc b u pod).2).any isCallEffect = true := by
  simp only [updateBuild]
  repeat' split
  all_goals
    first
    | exact updateBuildApply_has_call bc b _ pod _
    | simp [isCallEffect]

/-- updateBuild either issues a patch or rejects an invalid transition with an error
and no patch. -/
theorem updateBuild_patch_or_invalid (bc : Env) (b : Build) (u : buildUpdate)
    (pod : Option Pod) :
    ((updateBuild bc b u pod).2).any isPatchEffect = true ∨
    ((updateBuild bc b u pod).1 = some (.otherErr "invalid phase transition") ∧
     ((updateBuild bc b u pod).2).any isPatchEffect = false) := by
  simp only [updateBuild]
  repeat' split
  all_goals
    first
    | (right; exact ⟨rfl, by simp [isPatchEffect]⟩)
    | (left; exact updateBuildApply_has_patch bc b _ pod _ _)

/-- handleBuild on a non-ignored, non-pipeline build equals its dispatch plus the
conditional updateBuild application. -/
theorem handleBuild_decomp (bc : Env) (build : Build)
    (hig : shouldIgnore build = false)
    (hjp : build.spec.strategy.jenkinsPipelineStrategy = false) :
    handleBuild bc build =
      ((match (handleBuildDispatch bc build bc.podStoreGet).2.1 with
        | some e => some e
        | none =>
          match (handleBuildDispatch bc build bc.podStoreGet).1 with
          | some u =>
            if !u.isEmpty then (updateBuild bc build u bc.podStoreGet).1 else none
          | none => none),
       (handleBuildDispatch bc build bc.podStoreGet).2.2 ++
        (match (handleBuildDispatch bc build bc.podStoreGet).1 with
         | some u =>
           if !u.isEmpty then (updateBuild bc build u bc.podStoreGet).2 else []
         | none => [])) := by
  simp only [handleBuild, hig, hjp]
  rcases hd : (handleBuildDispatch bc build bc.podStoreGet).1 with _ | u
  · simp
  · by_cases he : u.isEmpty
    · simp [he]
    · simp [he]

/-- C7 (amended): updateBuild is invoked iff the handler's update is non-nil and
non-empty — an empty BuildUpdate never issues a patch — and this holds even when the
handler also returned an error; when invoked, updateBuild issues a patch unless the
proposed transition is invalid, in which case it returns an error without patching;
and handleBuild returns the first non-nil of the handler error and the update
error. -/
theorem c7_update_propagation (bc : Env) (build : Build)
    (hig : shouldIgnore build = false) :
    (((handleBuild bc build).2).any isCallEffect = true ↔
      ∃ u, (handleBuildDispatch bc build bc.podStoreGet).1 = some u ∧ u.isEmpty = false) ∧
    ((∀ u, (handleBuildDispatch bc build bc.podStoreGet).1 = some u → u.isEmpty = true) →
      ((handleBuild bc build).2).any isPatchEffect = false) ∧
    (∀ u, (handleBuildDispatch bc build bc.podStoreGet).1 = some u → u.isEmpty = false →
      (((handleBuild bc build).2).any isPatchEffect = true ∨
       ((updateBuild bc build u bc.podStoreGet).1 =
          some (.otherErr "invalid phase transition") ∧
        ((handleBuild bc build).2).any isPatchEffect = false))) ∧
    ((handleBuild bc build).1 =
      match (handleBuildDispatch bc build bc.podStoreGet).2.1 with
      | some e => some e
      | none =>
        match (handleBuildDispatch bc build bc.podStoreGet).1 with
        | some u =>
          if !u.isEmpty then (updateBuild bc build u bc.podStoreGet).1 else none
        | none => none) := by
  have hjp : build.spec.strategy.jenkinsPipelineStrategy = false := by
    by_contra hx
    rw [Bool.not_eq_false] at hx
    simp [shouldIgnore, hx] at hig
  have hdec := handleBuild_decomp bc build hig hjp
  have hclean := dispatch_clean bc build bc.podStoreGet
  rcases clean_no_patch_no_call _ hclean with ⟨hnp, hnc⟩
  refine ⟨?_, ?_, ?_, ?_⟩
  · rw [hdec]
    rcases hd : (handleBuildDispatch bc build bc.podStoreGet).1 with _ | u
    · simp [List.any_append, hnc]
    · by_cases he : u.isEmpty
      · simp [List.any_append, hnc, he]
      · simp only [he, Bool.not_false, if_true, List.any_append, hnc, Bool.false_or]
        constructor
        · intro _; exact ⟨u, rfl, by simp [he]⟩
        · intro _; exact updateBuild_has_call bc build u bc.podStoreGet
  · intro hall
    rw [hdec]
    rcases hd : (handleBuildDispatch bc build bc.podStoreGet).1 with _ | u
    · simp [List.any_append, hnp]
    · have := hall u hd
      simp [List.any_append, hnp, this]
  · intro u hd he
    rw [hdec]
    rcases updateBuild_patch_or_invalid bc build u bc.podStoreGet with h | ⟨h1, h2⟩
    · left
      simp [hd, he, List.any_append, hnp, h]
    · right
      refine ⟨h1, ?_⟩
      simp [hd, he, List.any_append, hnp, h2]
  · rw [hdec]

/-- C7 counterexample: for a Running build whose pod reports Pending, the handler
proposes a non-empty update, updateBuild is invoked, yet no patch is issued — the
Running-to-Pending transition is invalid — refuting the claim's parenthetical that a
patch is issued iff the update is non-nil and non-empty. -/
theorem c7_counterexample :
    (handleBuildDispatch c7cexEnv c7cexBuild c7cexEnv.podStoreGet).1 =
      some (transitionToPhase .Pending "" "") ∧
    (transitionToPhase .Pending "" "").isEmpty = false ∧
    ((handleBuild c7cexEnv c7cexBuild).2).any isCallEffect = true ∧
    ((handleBuild c7cexEnv c7cexBuild).2).any isPatchEffect = false := by
  refine ⟨rfl, rfl, rfl, rfl⟩

/-- C7 witness: the amended theorem applied to a concrete Pending build whose pod is
Running; the handler's update is non-empty and updateBuild is invoked. -/
theorem c7_witness :
    shouldIgnore c7okBuild = false ∧
    (((handleBuild c7okEnv c7okBuild).2).any isCallEffect = true ↔
      ∃ u, (handleBuildDispatch c7okEnv c7okBuild c7okEnv.podStoreGet).1 = some u ∧
        u.isEmpty = false) :=
  ⟨rfl, (c7_update_propagation c7okEnv c7okBuild rfl).1⟩

/-- C2 (amended): for every build whose output is an ImageStreamTag naming an
existing stream with an empty dockerImageRepository (integrated registry not
configured), createBuildPod sets reason InvalidOutputReference on the update, emits
the InvalidOutput warning event, creates no pod and proposes no phase change (the
build stays New) — but it returns the errNoIntegratedRegistry error rather than nil,
so the worker schedules a rate-limited retry; only a NotFound resolution failure
returns without error. -/
theorem c2_registry_not_configured (bc : Env) (b : Build) (r : ObjectReference)
    (ss : List String) (n tg : String) (st : ImageStream)
    (hphase : b.status.phase = BuildPhase.New)
    (hout : b.spec.output.toRef = some r)
    (hkind : r.kind = "ImageStreamTag")
    (hname : r.name ≠ "")
    (hsplit : splitImageStreamTag r.name = (n, tg, true))
    (hstreams : unresolvedImageStreamReferences b = .ok ss)
    (hne : ss.isEmpty = false)
    (hlook : bc.streams (if r.nspace = "" then b.nspace else r.nspace) n = some st)
    (hrepo : st.dockerImageRepository = "") :
    createBuildPod bc b =
      (some ((({} : buildUpdate).setReason statusReasonInvalidOutputReference).setMessage
        statusMessageInvalidOutputRef),
       some GoErr.noIntegratedRegistry,
       [Effect.isqAdd (resourceName b.nspace b.name) ss,
        Effect.eventf "Warning" "InvalidOutput"]) ∧
    ((({} : buildUpdate).setReason statusReasonInvalidOutputReference).setMessage
      statusMessageInvalidOutputRef).phase = none ∧
    ([Effect.isqAdd (resourceName b.nspace b.name) ss,
      Effect.eventf "Warning" "InvalidOutput"].any isPodCreateEffect) = false := by
  have hloc : resolveImageStreamLocation r bc.streams b.nspace =
      .error GoErr.noIntegratedRegistry := by
    unfold resolveImageStreamLocation
    rw [hkind, hsplit]
    simp only [hlook, hrepo]
    simp
  have hout2 : resolveOutputDockerImageReference b bc.streams =
      .error GoErr.noIntegratedRegistry := by
    unfold resolveOutputDockerImageReference
    rw [hout]
    simp only [hname, hkind, hloc]
    simp [hname]
  have hri : resolveImageReferences b ({} : buildUpdate) bc.streams =
      (b, (({} : buildUpdate).setReason statusReasonInvalidOutputReference).setMessage
        statusMessageInvalidOutputRef,
       some GoErr.noIntegratedRegistry,
       [Effect.isqAdd (resourceName b.nspace b.name) ss,
        Effect.eventf "Warning" "InvalidOutput"]) := by
    unfold resolveImageReferences
    rw [hstreams]
    simp only [hne, Bool.false_eq_true, if_false, hout2]
    simp [isNoIntegratedRegistryErr]
  refine ⟨?_, rfl, rfl⟩
  unfold createBuildPod
  rw [hri]
  simp [hasError, isNotFoundErr]

/-- C2 counterexample: for a concrete New build whose output ImageStreamTag names a
stream with an empty dockerImageRepository, createBuildPod returns the
errNoIntegratedRegistry error — not a nil error as the claim states — so a retry is
scheduled. -/
theorem c2_counterexample :
    c2cexBuild.status.phase = BuildPhase.New ∧
    c2cexEnv.streams "ns1" "is" = some { dockerImageRepository := "", tags := [] } ∧
    (createBuildPod c2cexEnv c2cexBuild).2.1 = some GoErr.noIntegratedRegistry ∧
    ((createBuildPod c2cexEnv c2cexBuild).2.1).isSome = true := by
  refine ⟨rfl, rfl, rfl, rfl⟩

/-- C2 witness: the amended theorem applied to the concrete New build and the
concrete environment whose stream has no registry configured. -/
theorem c2_witness :
    unresolvedImageStreamReferences c2cexBuild = .ok ["ns1/is"] ∧
    (createBuildPod c2cexEnv c2cexBuild).2.1 = some GoErr.noIntegratedRegistry := by
  refine ⟨rfl, ?_⟩
  have h := c2_registry_not_configured c2cexEnv c2cexBuild
    { kind := "ImageStreamTag", nspace := "", name := "is:latest" } ["ns1/is"] "is" "latest"
    { dockerImageRepository := "", tags := [] }
    rfl rfl rfl (by decide) rfl rfl rfl rfl rfl
  rw [h.1]

end BuildCtl
